import Mathlib

/-!
Verification development for the sign-language gesture classification
pipeline (repository `senas`).

The Python source is shallowly embedded as follows.

* A hand is a flat list of coordinates (the source passes flat lists of
  63 floats, 21 landmarks times 3 coordinates); coordinates are modelled
  over `ℚ`.  `np.array(landmarks[:63]).reshape(-1, 3)` row `i` is `pt lms i`.
* Every comparison `np.linalg.norm(a - b) < c` in the source has `c` a
  positive literal, so it is embedded as the equivalent rational
  comparison `d2 a b < c ^ 2` on squared distances (and likewise for
  `>`); this keeps the embedding executable.
* `GestureClassifier._angle` computes `arccos` of a clamped cosine; it is
  embedded over `ℝ` (`angle_deg` below).  Feature-dictionary entries of the
  Python source become one Lean definition per key: rational-only entries
  are `Bool`-valued (executable), entries that mention an angle are
  `Prop`-valued over `ℝ`.
* Python stateful objects become explicit state records; every method that
  mutates `self` returns the produced value together with the new state.
* Python mean `np.mean` over a nonempty list of rationals is `listMean`.
-/

namespace Senas

/-- One landmark: normalized (x, y, z). -/
abbrev Point : Type := ℚ × ℚ × ℚ

def px (p : Point) : ℚ := p.1

def py (p : Point) : ℚ := p.2.1

def pz (p : Point) : ℚ := p.2.2

/-- Row `i` of `np.array(landmarks[:63]).reshape(-1, 3)` for a flat list of
coordinates.  Out-of-range reads default to `0`; all call sites guard the
length (at least 63 values) before extracting, so the default is never hit
on inputs the source accepts. -/
def pt (lms : List ℚ) (i : ℕ) : Point :=
  (lms.getD (3 * i) 0, lms.getD (3 * i + 1) 0, lms.getD (3 * i + 2) 0)

/-- Squared Euclidean distance between two landmarks; stands for
`np.linalg.norm(a - b) ^ 2`. -/
def d2 (a b : Point) : ℚ :=
  (px a - px b) ^ 2 + (py a - py b) ^ 2 + (pz a - pz b) ^ 2

/-- Python list slice `l[-n:]`. -/
def takeLast {α : Type} (n : ℕ) (l : List α) : List α :=
  l.drop (l.length - n)

/-- `np.mean` of a list of rationals (call sites only use nonempty lists). -/
def listMean (xs : List ℚ) : ℚ :=
  xs.sum / xs.length

/-! ## Syllable classifier (`src/detector/syllable_classifier.py`) -/

/-- Which hand a landmark list belongs to (`hand_side` parameter). -/
inductive HandSide : Type
  | left
  | right
deriving DecidableEq

/-- Feature record of `SyllableClassifier._extract_hand_features`.
Distances are stored squared (see the header). -/
structure SylFeatures : Type where
  thumb_extended : Bool
  index_extended : Bool
  middle_extended : Bool
  ring_extended : Bool
  pinky_extended : Bool
  thumb_index_dist2 : ℚ
  index_middle_dist2 : ℚ
  fingers_count : ℕ
  fist_closed : Bool

/-- `SyllableClassifier._extract_hand_features`. -/
def extract_hand_features (lms : List ℚ) : SylFeatures :=
  let thumb_tip := pt lms 4
  let index_tip := pt lms 8
  let middle_tip := pt lms 12
  let ring_tip := pt lms 16
  let pinky_tip := pt lms 20
  let thumb_ip := pt lms 3
  let index_pip := pt lms 6
  let middle_pip := pt lms 10
  let ring_pip := pt lms 14
  let pinky_pip := pt lms 18
  let te : Bool := py thumb_tip < py thumb_ip
  let ie : Bool := py index_tip < py index_pip
  let me : Bool := py middle_tip < py middle_pip
  let re : Bool := py ring_tip < py ring_pip
  let pe : Bool := py pinky_tip < py pinky_pip
  { thumb_extended := te
    index_extended := ie
    middle_extended := me
    ring_extended := re
    pinky_extended := pe
    thumb_index_dist2 := d2 thumb_tip index_tip
    index_middle_dist2 := d2 index_tip middle_tip
    fingers_count :=
      (te.toNat) + (ie.toNat) + (me.toNat) + (re.toNat) + (pe.toNat)
    fist_closed :=
      (te.toNat) + (ie.toNat) + (me.toNat) + (re.toNat) + (pe.toNat) = 0 }

/-- `SyllableClassifier._detect_consonant`. -/
def detect_consonant (f : SylFeatures) : Option String :=
  if !f.index_extended && !f.middle_extended && !f.ring_extended
      && f.thumb_extended then
    some "M"
  else if f.index_extended && f.middle_extended && !f.ring_extended
      && !f.pinky_extended then
    some "P"
  else if f.index_extended && !f.middle_extended && !f.ring_extended
      && !f.pinky_extended && f.thumb_extended then
    some "L"
  else if f.fist_closed && f.thumb_extended then
    some "T"
  else if f.fist_closed then
    some "S"
  else
    none

/-- `SyllableClassifier._detect_vowel`.  The source compares
`thumb_index_dist < 0.08` and `index_middle_dist < 0.05`; squared:
`(8/100)^2` and `(5/100)^2`. -/
def detect_vowel (f : SylFeatures) : Option String :=
  if f.fist_closed && !f.thumb_extended then
    some "A"
  else if !f.index_extended && !f.middle_extended && f.thumb_extended then
    some "E"
  else if !f.index_extended && !f.middle_extended && !f.ring_extended
      && f.pinky_extended then
    some "I"
  else if f.thumb_index_dist2 < (8 / 100 : ℚ) ^ 2 && f.fingers_count ≤ 2 then
    some "O"
  else if f.index_extended && f.middle_extended && !f.ring_extended
      && !f.pinky_extended && f.index_middle_dist2 < (5 / 100 : ℚ) ^ 2 then
    some "U"
  else
    none

/-- `SyllableClassifier._detect_letter_in_hand`: a hand with fewer than 63
coordinate values (fewer than 21 landmarks) is treated as absent. -/
def detect_letter_in_hand (lms : List ℚ) (hand_side : HandSide) :
    Option String :=
  if lms.isEmpty || lms.length < 63 then
    none
  else
    match hand_side with
    | HandSide.left => detect_consonant (extract_hand_features lms)
    | HandSide.right => detect_vowel (extract_hand_features lms)

/-- Keys of `SyllableClassifier.supported_syllables`. -/
def supported_syllables : List String :=
  ["MA", "ME", "MI", "MO", "MU",
   "PA", "PE", "PI", "PO", "PU",
   "LA", "LE", "LI", "LO", "LU"]

/-- `SyllableClassifier._combine_letters_to_syllable`. -/
def combine_letters_to_syllable (consonant vowel : Option String) :
    Option String :=
  match consonant, vowel with
  | some c, some v =>
      let s := c ++ v
      if s ∈ supported_syllables then some s else none
  | _, _ => none

/-- `SyllableClassifier._stabilize_detection`, factored over the threshold
and the mutable `detection_history`.  The float guard
`count >= threshold * 0.6` is the integer condition
`5 * count ≥ 3 * threshold`. -/
def stabilize_detection (threshold : ℕ) (history : List (Option String))
    (syllable : Option String) : Option String × List (Option String) :=
  let h1 := history ++ [syllable]
  let h2 := if threshold * 2 < h1.length then takeLast threshold h1 else h1
  let out :=
    if threshold ≤ h2.length then
      match syllable with
      | some s =>
          let recent := takeLast threshold h2
          if some s ∈ recent ∧ 3 * threshold ≤ 5 * recent.count (some s) then
            some s
          else
            none
      | none => none
    else
      none
  (out, h2)

/-- Mutable state of `SyllableClassifier`. -/
structure SCState : Type where
  detection_history : List (Option String) := []
  stability_threshold : ℕ := 8

/-- Fresh `SyllableClassifier()`. -/
def initSC : SCState := {}

/-- `SyllableClassifier.predict_syllable`.  `not left_hand_landmarks` is
Python truthiness: `None` or the empty list. -/
def predict_syllable (st : SCState) (left right : Option (List ℚ)) :
    Option String × SCState :=
  match left, right with
  | some l, some r =>
      if l.isEmpty || r.isEmpty then
        (none, st)
      else
        let left_letter := detect_letter_in_hand l HandSide.left
        let right_letter := detect_letter_in_hand r HandSide.right
        let syllable := combine_letters_to_syllable left_letter right_letter
        let r :=
          stabilize_detection st.stability_threshold st.detection_history
            syllable
        (r.1, { st with detection_history := r.2 })
  | _, _ => (none, st)

/-! ## Joint angles (`GestureClassifier._angle`) -/

/-- Dot product on real 3-vectors. -/
def dotR (v w : ℝ × ℝ × ℝ) : ℝ :=
  v.1 * w.1 + v.2.1 * w.2.1 + v.2.2 * w.2.2

/-- Componentwise difference of real 3-vectors. -/
def subR (v w : ℝ × ℝ × ℝ) : ℝ × ℝ × ℝ :=
  (v.1 - w.1, v.2.1 - w.2.1, v.2.2 - w.2.2)

/-- `np.linalg.norm` of a real 3-vector. -/
noncomputable def normR (v : ℝ × ℝ × ℝ) : ℝ :=
  Real.sqrt (dotR v v)

/-- `GestureClassifier._angle(p1, p2, p3)`: the angle in degrees at `p2`,
`0` when either adjacent vector has zero length, else the arc cosine of the
cosine clamped to `[-1, 1]` (the clamp is `np.clip(x, -1.0, 1.0)`). -/
noncomputable def angle_deg (p1 p2 p3 : ℝ × ℝ × ℝ) : ℝ :=
  let v1 := subR p1 p2
  let v2 := subR p3 p2
  let norm1 := normR v1
  let norm2 := normR v2
  if norm1 = 0 ∨ norm2 = 0 then 0
  else
    let cos_angle := min (max (dotR v1 v2 / (norm1 * norm2)) (-1)) 1
    Real.arccos cos_angle * 180 / Real.pi

/-- Cast a rational landmark to real coordinates. -/
def toR (p : Point) : ℝ × ℝ × ℝ :=
  ((px p : ℝ), (py p : ℝ), (pz p : ℝ))

/-- `_angle` applied to three landmarks. -/
noncomputable def anglePt (p1 p2 p3 : Point) : ℝ :=
  angle_deg (toR p1) (toR p2) (toR p3)

/-! ## Letter classifier features
(`GestureClassifier._extract_ultra_precise_features`)

Each key of the Python feature dictionary becomes one definition applied to
the flat landmark list.  Keys whose value only involves rational
comparisons are `Bool`; keys storing an angle are `ℝ`; keys whose value
compares an angle are `Prop`.  Distances are squared (`_d2` suffix). -/

def thumb_ext (lms : List ℚ) : Bool :=
  decide (py (pt lms 4) < py (pt lms 3) - 15 / 1000)

def index_ext (lms : List ℚ) : Bool :=
  decide (py (pt lms 8) < py (pt lms 6) - 25 / 1000)

def middle_ext (lms : List ℚ) : Bool :=
  decide (py (pt lms 12) < py (pt lms 10) - 25 / 1000)

def ring_ext (lms : List ℚ) : Bool :=
  decide (py (pt lms 16) < py (pt lms 14) - 25 / 1000)

def pinky_ext (lms : List ℚ) : Bool :=
  decide (py (pt lms 20) < py (pt lms 18) - 25 / 1000)

def index_semi (lms : List ℚ) : Bool :=
  decide (py (pt lms 6) < py (pt lms 5)) && !index_ext lms

def middle_semi (lms : List ℚ) : Bool :=
  decide (py (pt lms 10) < py (pt lms 9)) && !middle_ext lms

noncomputable def thumb_angle (lms : List ℚ) : ℝ :=
  anglePt (pt lms 2) (pt lms 3) (pt lms 4)

noncomputable def index_angle (lms : List ℚ) : ℝ :=
  anglePt (pt lms 5) (pt lms 6) (pt lms 8)

noncomputable def middle_angle (lms : List ℚ) : ℝ :=
  anglePt (pt lms 9) (pt lms 10) (pt lms 12)

noncomputable def ring_angle (lms : List ℚ) : ℝ :=
  anglePt (pt lms 13) (pt lms 14) (pt lms 16)

noncomputable def pinky_angle (lms : List ℚ) : ℝ :=
  anglePt (pt lms 17) (pt lms 18) (pt lms 20)

noncomputable def index_middle_angle (lms : List ℚ) : ℝ :=
  anglePt (pt lms 8) (pt lms 5) (pt lms 12)

noncomputable def middle_ring_angle (lms : List ℚ) : ℝ :=
  anglePt (pt lms 12) (pt lms 9) (pt lms 16)

noncomputable def thumb_index_angle (lms : List ℚ) : ℝ :=
  anglePt (pt lms 4) (pt lms 0) (pt lms 8)

def thumb_index_d2 (lms : List ℚ) : ℚ := d2 (pt lms 4) (pt lms 8)

def thumb_middle_d2 (lms : List ℚ) : ℚ := d2 (pt lms 4) (pt lms 12)

def thumb_ring_d2 (lms : List ℚ) : ℚ := d2 (pt lms 4) (pt lms 16)

def thumb_pinky_d2 (lms : List ℚ) : ℚ := d2 (pt lms 4) (pt lms 20)

def index_middle_d2 (lms : List ℚ) : ℚ := d2 (pt lms 8) (pt lms 12)

def middle_ring_d2 (lms : List ℚ) : ℚ := d2 (pt lms 12) (pt lms 16)

def ring_pinky_d2 (lms : List ℚ) : ℚ := d2 (pt lms 16) (pt lms 20)

def index_pinky_d2 (lms : List ℚ) : ℚ := d2 (pt lms 8) (pt lms 20)

def thumb_wrist_d2 (lms : List ℚ) : ℚ := d2 (pt lms 4) (pt lms 0)

def index_wrist_d2 (lms : List ℚ) : ℚ := d2 (pt lms 8) (pt lms 0)

def middle_wrist_d2 (lms : List ℚ) : ℚ := d2 (pt lms 12) (pt lms 0)

def thumb_to_index_base_d2 (lms : List ℚ) : ℚ := d2 (pt lms 4) (pt lms 5)

def index_to_middle_base_d2 (lms : List ℚ) : ℚ := d2 (pt lms 8) (pt lms 9)

def thumb_left (lms : List ℚ) : Bool :=
  decide (px (pt lms 4) < px (pt lms 5) - 5 / 100)

def thumb_right (lms : List ℚ) : Bool :=
  decide (px (pt lms 4) > px (pt lms 17) + 5 / 100)

def thumb_center (lms : List ℚ) : Bool :=
  !thumb_left lms && !thumb_right lms

def thumb_above (lms : List ℚ) : Bool :=
  decide (py (pt lms 4) < py (pt lms 5) - 3 / 100)

def thumb_below (lms : List ℚ) : Bool :=
  decide (py (pt lms 4) > py (pt lms 5) + 3 / 100)

def index_horiz (lms : List ℚ) : Bool :=
  decide (|px (pt lms 8) - px (pt lms 5)| > |py (pt lms 8) - py (pt lms 5)|)

def middle_horiz (lms : List ℚ) : Bool :=
  decide (|px (pt lms 12) - px (pt lms 9)| > |py (pt lms 12) - py (pt lms 9)|)

def index_left_of_middle (lms : List ℚ) : Bool :=
  decide (px (pt lms 8) < px (pt lms 12) - 2 / 100)

def index_right_of_middle (lms : List ℚ) : Bool :=
  decide (px (pt lms 8) > px (pt lms 12) + 2 / 100)

def fingers_count (lms : List ℚ) : ℕ :=
  (thumb_ext lms).toNat + (index_ext lms).toNat + (middle_ext lms).toNat
    + (ring_ext lms).toNat + (pinky_ext lms).toNat

def fist (lms : List ℚ) : Bool :=
  fingers_count lms = 0

def index_curved_45_90 (lms : List ℚ) : Prop :=
  45 < index_angle lms ∧ index_angle lms < 90

def index_curved_90_135 (lms : List ℚ) : Prop :=
  90 < index_angle lms ∧ index_angle lms < 135

def middle_curved_90_135 (lms : List ℚ) : Prop :=
  90 < middle_angle lms ∧ middle_angle lms < 135

def three_middle_up (lms : List ℚ) : Bool :=
  index_ext lms && middle_ext lms && ring_ext lms

def two_middle_up (lms : List ℚ) : Bool :=
  index_ext lms && middle_ext lms && !ring_ext lms

def k_formation (lms : List ℚ) : Prop :=
  index_ext lms ∧ middle_ext lms ∧ ¬ring_ext lms ∧ ¬pinky_ext lms
    ∧ thumb_middle_d2 lms < (9 / 100 : ℚ) ^ 2
    ∧ (40 < index_middle_angle lms ∧ index_middle_angle lms < 80)

def p_formation (lms : List ℚ) : Bool :=
  index_ext lms && middle_ext lms && !ring_ext lms && !pinky_ext lms
    && decide (thumb_middle_d2 lms < (9 / 100 : ℚ) ^ 2)
    && decide (py (pt lms 8) > py (pt lms 12))

def q_formation (lms : List ℚ) : Bool :=
  index_ext lms && !middle_ext lms && !ring_ext lms && !pinky_ext lms
    && thumb_ext lms
    && decide (thumb_index_d2 lms > (7 / 100 : ℚ) ^ 2)
    && decide (thumb_index_d2 lms < (20 / 100 : ℚ) ^ 2)
    && (decide (py (pt lms 8) > py (pt lms 5) - 5 / 100)
        || decide (|py (pt lms 8) - py (pt lms 4)| < 6 / 100))

def u_formation (lms : List ℚ) : Bool :=
  two_middle_up lms
    && decide (index_middle_d2 lms < (45 / 1000 : ℚ) ^ 2)
    && decide (|py (pt lms 8) - py (pt lms 12)| < 3 / 100)

def e_formation (lms : List ℚ) : Prop :=
  fist lms
    ∧ (90 < index_angle lms ∧ index_angle lms < 150)
    ∧ (90 < middle_angle lms ∧ middle_angle lms < 150)
    ∧ (90 < ring_angle lms ∧ ring_angle lms < 150)
    ∧ (90 < pinky_angle lms ∧ pinky_angle lms < 150)

def g_formation (lms : List ℚ) : Bool :=
  index_ext lms && !middle_ext lms && thumb_ext lms && index_horiz lms
    && decide (thumb_index_d2 lms > (12 / 100 : ℚ) ^ 2)

def j_formation (lms : List ℚ) : Bool :=
  !index_ext lms && !middle_ext lms && !ring_ext lms && pinky_ext lms
    && decide (px (pt lms 20) < px (pt lms 17))

/-- Source dictionary key is the Spanish letter enye with `_formation`. -/
def nn_formation (lms : List ℚ) : Bool :=
  two_middle_up lms && !thumb_ext lms
    && decide (index_middle_d2 lms < (4 / 100 : ℚ) ^ 2)

def ll_formation (lms : List ℚ) : Bool :=
  index_ext lms && thumb_ext lms && !middle_ext lms && !ring_ext lms
    && decide (thumb_index_d2 lms > (15 / 100 : ℚ) ^ 2)
    && thumb_left lms

def rr_formation (lms : List ℚ) : Bool :=
  two_middle_up lms
    && decide (index_middle_d2 lms < (25 / 1000 : ℚ) ^ 2)
    && index_left_of_middle lms

def t_formation (lms : List ℚ) : Bool :=
  fist lms && thumb_center lms
    && decide (thumb_to_index_base_d2 lms < (6 / 100 : ℚ) ^ 2)
    && decide (py (pt lms 4) > py (pt lms 5) - 2 / 100)

def m_formation (lms : List ℚ) : Bool :=
  !index_ext lms && !middle_ext lms && !ring_ext lms && !pinky_ext lms
    && thumb_ext lms
    && decide (py (pt lms 4) < py (pt lms 5))
    && decide (thumb_index_d2 lms < (8 / 100 : ℚ) ^ 2)
    && decide (thumb_middle_d2 lms < (8 / 100 : ℚ) ^ 2)
    && decide (thumb_ring_d2 lms < (8 / 100 : ℚ) ^ 2)

def r_improved (lms : List ℚ) : Bool :=
  index_ext lms && middle_ext lms && !ring_ext lms && !pinky_ext lms
    && decide (index_middle_d2 lms < (5 / 100 : ℚ) ^ 2)
    && (index_left_of_middle lms
        || decide (|px (pt lms 8) - px (pt lms 12)| < 25 / 1000))

def n_formation (lms : List ℚ) : Bool :=
  !index_ext lms && !middle_ext lms && ring_ext lms && pinky_ext lms
    && !thumb_ext lms
    && decide (py (pt lms 4) < py (pt lms 5))
    && decide (thumb_index_d2 lms < (8 / 100 : ℚ) ^ 2)
    && decide (thumb_middle_d2 lms < (8 / 100 : ℚ) ^ 2)

/-! ## Letter classification cascade
(`GestureClassifier._classify_with_enhanced_rules`) -/

/-- First part of the triple Q verification (`q_check1`). -/
def q_check1 (lms : List ℚ) : Bool :=
  index_ext lms && !middle_ext lms && !ring_ext lms && !pinky_ext lms
    && thumb_ext lms
    && decide ((7 / 100 : ℚ) ^ 2 < thumb_index_d2 lms)
    && decide (thumb_index_d2 lms < (25 / 100 : ℚ) ^ 2)

/-- `q_check2`: the index points down or horizontal. -/
def q_check2 (lms : List ℚ) : Bool :=
  decide (py (pt lms 8) > py (pt lms 5) - 5 / 100)

/-- `q_check3`: the thumb points down or horizontal. -/
def q_check3 (lms : List ℚ) : Bool :=
  decide (py (pt lms 4) > py (pt lms 2) - 5 / 100)

open Classical in
/-- `GestureClassifier._classify_with_enhanced_rules`: the ordered cascade
of letter clauses; the first matching clause wins. -/
noncomputable def classify_with_enhanced_rules (lms : List ℚ) :
    Option String :=
  if q_check1 lms ∧ (q_check2 lms ∨ q_check3 lms) then some "Q"
  else if e_formation lms then some "E"
  else if t_formation lms then some "T"
  else if m_formation lms then some "M"
  else if n_formation lms then some "N"
  else if nn_formation lms then some "Ñ"
  else if k_formation lms then some "K"
  else if p_formation lms then some "P"
  else if u_formation lms then some "U"
  else if g_formation lms then some "G"
  else if j_formation lms then some "J"
  else if ll_formation lms ∧ thumb_index_d2 lms > (15 / 100 : ℚ) ^ 2 then
    some "LL"
  else if rr_formation lms then some "RR"
  else if index_curved_45_90 lms ∧ ¬middle_ext lms ∧ ¬ring_ext lms
      ∧ ¬pinky_ext lms then
    some "X"
  else if fist lms ∧ thumb_center lms
      ∧ thumb_to_index_base_d2 lms < (5 / 100 : ℚ) ^ 2 then
    some "T"
  else if ¬index_ext lms ∧ ¬middle_ext lms ∧ ¬ring_ext lms ∧ pinky_ext lms
      ∧ thumb_ext lms ∧ thumb_pinky_d2 lms > (12 / 100 : ℚ) ^ 2 then
    some "Y"
  else if ¬index_ext lms ∧ ¬middle_ext lms ∧ ¬ring_ext lms ∧ pinky_ext lms
      ∧ ¬thumb_ext lms then
    some "I"
  else if index_ext lms ∧ ¬middle_ext lms ∧ ¬ring_ext lms ∧ ¬pinky_ext lms
      ∧ thumb_middle_d2 lms < (10 / 100 : ℚ) ^ 2 then
    some "D"
  else if index_ext lms ∧ ¬middle_ext lms ∧ ¬ring_ext lms ∧ ¬pinky_ext lms
      ∧ thumb_ext lms ∧ thumb_left lms
      ∧ thumb_index_d2 lms > (10 / 100 : ℚ) ^ 2
      ∧ thumb_index_d2 lms < (18 / 100 : ℚ) ^ 2 then
    some "L"
  else if index_ext lms ∧ middle_ext lms ∧ ¬ring_ext lms ∧ ¬pinky_ext lms
      ∧ index_middle_d2 lms > (6 / 100 : ℚ) ^ 2 ∧ ¬thumb_ext lms then
    some "V"
  else if two_middle_up lms ∧ index_horiz lms ∧ middle_horiz lms
      ∧ index_middle_d2 lms < (6 / 100 : ℚ) ^ 2 then
    some "H"
  else if r_improved lms then some "R"
  else if index_ext lms ∧ middle_ext lms ∧ ¬ring_ext lms ∧ ¬pinky_ext lms
      ∧ ¬thumb_ext lms ∧ index_middle_d2 lms < (5 / 100 : ℚ) ^ 2 then
    some "R"
  else if two_middle_up lms ∧ index_middle_d2 lms < (4 / 100 : ℚ) ^ 2
      ∧ index_left_of_middle lms then
    some "R"
  else if two_middle_up lms ∧ index_middle_d2 lms < (4 / 100 : ℚ) ^ 2
      ∧ index_left_of_middle lms then
    some "R"
  else if three_middle_up lms ∧ ¬pinky_ext lms ∧ ¬thumb_ext lms then
    some "W"
  else if index_ext lms ∧ middle_ext lms ∧ ring_ext lms ∧ pinky_ext lms
      ∧ ¬thumb_ext lms ∧ index_middle_d2 lms < (5 / 100 : ℚ) ^ 2
      ∧ middle_ring_d2 lms < (5 / 100 : ℚ) ^ 2 then
    some "B"
  else if ¬index_ext lms ∧ middle_ext lms ∧ ring_ext lms ∧ pinky_ext lms
      ∧ thumb_index_d2 lms < (8 / 100 : ℚ) ^ 2 then
    some "F"
  else if ¬index_ext lms ∧ ¬middle_ext lms ∧ ring_ext lms ∧ pinky_ext lms
      ∧ ¬thumb_ext lms then
    some "N"
  else if fist lms ∧ thumb_left lms ∧ ¬thumb_ext lms then some "A"
  else if fist lms ∧ ¬thumb_left lms ∧ ¬thumb_ext lms then some "S"
  else if fist lms ∧ thumb_ext lms ∧ ¬thumb_left lms then some "M"
  else if thumb_index_d2 lms < (10 / 100 : ℚ) ^ 2 ∧ fingers_count lms ≤ 2 then
    some "O"
  else if 2 ≤ fingers_count lms ∧ thumb_index_d2 lms > (8 / 100 : ℚ) ^ 2
      ∧ thumb_index_d2 lms < (20 / 100 : ℚ) ^ 2 then
    some "C"
  else if index_ext lms ∧ ¬middle_ext lms ∧ ¬ring_ext lms ∧ ¬pinky_ext lms
      ∧ index_horiz lms then
    some "Z"
  else none

/-- `GestureClassifier._classify_complete_alphabet`. -/
noncomputable def classify_complete_alphabet (lms : List ℚ) :
    Option String :=
  if lms.isEmpty || lms.length < 63 then none
  else classify_with_enhanced_rules lms

open Classical in
/-- `GestureClassifier._calculate_gesture_confidence`. -/
noncomputable def calculate_gesture_confidence (letter : String)
    (lms : List ℚ) : ℚ :=
  let confidence : ℚ :=
    if letter = "K" ∧ k_formation lms then
      1 / 2 + 3 / 10
        + (if 40 < index_middle_angle lms ∧ index_middle_angle lms < 80 then
            2 / 10 else 0)
    else if letter = "P" ∧ p_formation lms then
      1 / 2 + 3 / 10
        + (if thumb_middle_d2 lms < (9 / 100 : ℚ) ^ 2 then 2 / 10 else 0)
    else if letter = "U" ∧ u_formation lms then
      1 / 2 + 3 / 10
        + (if index_middle_d2 lms < (45 / 1000 : ℚ) ^ 2 then 2 / 10 else 0)
    else if letter = "E" ∧ e_formation lms then
      1 / 2 + 3 / 10 + (if fist lms then 2 / 10 else 0)
    else if letter = "G" ∧ g_formation lms then
      1 / 2 + 3 / 10
        + (if thumb_index_d2 lms > (12 / 100 : ℚ) ^ 2 then 2 / 10 else 0)
    else
      1 / 2
        + (if fingers_count lms ∈ [0, 1, 2, 3, 4, 5] then 3 / 10 else 0)
  min 1 confidence

/-- The `confidence_scores` dictionary: letter to list of recent scores
(missing key: empty list). -/
def ConfScores : Type := String → List ℚ

/-- `GestureClassifier._cross_validate_detection`: appends the score for
this letter (keeping the last 10), then accepts the letter only if the
mean score reaches the confidence threshold. -/
noncomputable def cross_validate_detection (letter : String) (lms : List ℚ)
    (confidence_threshold : ℚ) (scores : ConfScores) :
    Option String × ConfScores :=
  let s := calculate_gesture_confidence letter lms
  let xs := scores letter ++ [s]
  let xs2 := if 10 < xs.length then takeLast 10 xs else xs
  let scores2 : ConfScores := fun x => if x = letter then xs2 else scores x
  if confidence_threshold ≤ listMean xs2 then (some letter, scores2)
  else (none, scores2)

/-- The stabilization block of `GestureClassifier.predict_gesture`
(append to the history, truncate, require the current letter to fill
`count >= stability_threshold * 0.6` of the recent window, i.e.
`5 * count ≥ 3 * threshold`). -/
def letter_stabilize (threshold : ℕ) (history : List (Option String))
    (current : Option String) : Option String × List (Option String) :=
  let h1 := history ++ [current]
  let h2 := if threshold * 2 < h1.length then takeLast threshold h1 else h1
  let out :=
    if threshold ≤ h2.length then
      match current with
      | some l =>
          if 3 * threshold ≤ 5 * (takeLast threshold h2).count (some l) then
            some l
          else
            none
      | none => none
    else
      none
  (out, h2)

/-- Mutable state of `GestureClassifier`. -/
structure GCState : Type where
  is_trained : Bool := true
  detection_history : List (Option String) := []
  stability_threshold : ℕ := 4
  confidence_threshold : ℚ := 65 / 100
  confidence_scores : ConfScores := fun _ => []

/-- Fresh `GestureClassifier()`. -/
noncomputable def initGC : GCState := {}

/-- `GestureClassifier.predict_gesture`. -/
noncomputable def predict_gesture (st : GCState) (lms : List ℚ) :
    Option String × GCState :=
  if !st.is_trained || lms.isEmpty || lms.length < 63 then (none, st)
  else
    let current := classify_complete_alphabet lms
    let validated :=
      match current with
      | some l =>
          cross_validate_detection l lms st.confidence_threshold
            st.confidence_scores
      | none => (none, st.confidence_scores)
    let stab :=
      letter_stabilize st.stability_threshold st.detection_history
        validated.1
    (stab.1, { st with detection_history := stab.2,
                       confidence_scores := validated.2 })

/-! ## Complete-word detector (`src/detector/complete_word_detector.py`) -/

/-- `CompleteWordDetector.word_gestures` (gesture key to emitted word). -/
def word_gestures : List (String × String) :=
  [("THUMBS_UP", "HOLA"), ("WAVE", "ADIOS"), ("PEACE", "BUENOS"),
   ("OK_SIGN", "GRACIAS"), ("PRAY_HANDS", "POR FAVOR"), ("BOW", "DISCULPA"),
   ("THUMBS_DOWN", "NO"), ("NOD_YES", "SI"), ("SHAKA", "OK"),
   ("FIST_UP", "BIEN"), ("POINTING_UP", "NECESITO"),
   ("DRINK_GESTURE", "AGUA"), ("EAT_GESTURE", "COMIDA"),
   ("BATHROOM_SIGN", "BAÑO"), ("SLEEP_GESTURE", "DORMIR"),
   ("HEART_HANDS", "TE AMO"), ("MAMA_SIGN", "MAMA"), ("PAPA_SIGN", "PAPA"),
   ("BABY_ROCK", "BEBE"), ("FAMILY_SIGN", "FAMILIA"),
   ("HAPPY_SIGN", "FELIZ"), ("SAD_SIGN", "TRISTE"),
   ("ANGRY_FIST", "ENOJADO"), ("SCARED_HANDS", "MIEDO"),
   ("LOVE_HEART", "AMOR"), ("CALL_ME", "AYUDA"), ("COME_HERE", "VEN"),
   ("GO_AWAY", "VETE"), ("WAIT_HAND", "ESPERA"), ("STOP_HAND", "ALTO"),
   ("HOME_SIGN", "CASA"), ("SCHOOL_SIGN", "ESCUELA"),
   ("WORK_SIGN", "TRABAJO"), ("HOSPITAL_CROSS", "HOSPITAL"),
   ("NOW_SIGN", "AHORA"), ("LATER_SIGN", "DESPUES"), ("TODAY_SIGN", "HOY"),
   ("TOMORROW_POINT", "MAÑANA"), ("PHONE_CALL", "TELEFONO"),
   ("WRITE_SIGN", "ESCRIBIR"), ("READ_SIGN", "LEER"),
   ("LISTEN_EAR", "ESCUCHAR"), ("MONEY_RUB", "DINERO"),
   ("FRIEND_LINK", "AMIGO"), ("THANK_BOW", "GRACIAS"),
   ("SORRY_CIRCLE", "PERDON")]

/-- Finger states of `CompleteWordDetector._classify_word_gesture`
(tip above the pip joint by more than 0.03). -/
def w_thumb_up (lms : List ℚ) : Bool :=
  decide (py (pt lms 4) < py (pt lms 3) - 3 / 100)

def w_index_up (lms : List ℚ) : Bool :=
  decide (py (pt lms 8) < py (pt lms 6) - 3 / 100)

def w_middle_up (lms : List ℚ) : Bool :=
  decide (py (pt lms 12) < py (pt lms 10) - 3 / 100)

def w_ring_up (lms : List ℚ) : Bool :=
  decide (py (pt lms 16) < py (pt lms 14) - 3 / 100)

def w_pinky_up (lms : List ℚ) : Bool :=
  decide (py (pt lms 20) < py (pt lms 18) - 3 / 100)

/-- `CompleteWordDetector._classify_word_gesture`: ordered cascade of
whole-word gesture shapes; fewer than 21 landmarks yields `none` (the
reshape/indexing failure is caught and turned into `None`). -/
def classify_word_gesture (lms : List ℚ) : Option String :=
  if lms.length < 63 then none
  else
    let wrist := pt lms 0
    let thumb_tip := pt lms 4
    let thumb_mcp := pt lms 2
    let index_tip := pt lms 8
    let index_pip := pt lms 6
    let index_mcp := pt lms 5
    let middle_tip := pt lms 12
    let middle_pip := pt lms 10
    let middle_mcp := pt lms 9
    let thumb_up := w_thumb_up lms
    let index_up := w_index_up lms
    let middle_up := w_middle_up lms
    let ring_up := w_ring_up lms
    let pinky_up := w_pinky_up lms
    let thumb_index_dist2 := d2 thumb_tip index_tip
    let thumb_middle_dist2 := d2 thumb_tip middle_tip
    let index_middle_dist2 := d2 index_tip middle_tip
    let thumb_pinky_dist2 := d2 thumb_tip (pt lms 20)
    if thumb_up && !index_up && !middle_up && !ring_up && !pinky_up
        && decide (py thumb_tip < py wrist - 1 / 10) then
      some "THUMBS_UP"
    else if index_up && middle_up && !ring_up && !pinky_up && !thumb_up
        && decide (index_middle_dist2 > (6 / 100 : ℚ) ^ 2) then
      some "PEACE"
    else if decide (thumb_index_dist2 < (6 / 100 : ℚ) ^ 2) && middle_up
        && ring_up && pinky_up then
      some "OK_SIGN"
    else if index_up && middle_up && ring_up && pinky_up && thumb_up
        && decide (index_middle_dist2 < (4 / 100 : ℚ) ^ 2)
        && decide (|px index_tip - px middle_tip| < 3 / 100) then
      some "PRAY_HANDS"
    else if index_up && !middle_up && !ring_up && !pinky_up && !thumb_up
        && decide (py index_tip < py index_mcp - 8 / 100) then
      some "POINTING_UP"
    else if thumb_up && !index_up && !middle_up && !ring_up && pinky_up
        && decide (thumb_pinky_dist2 > (15 / 100 : ℚ) ^ 2) then
      some "SHAKA"
    else if thumb_up && index_up && !middle_up
        && decide (thumb_index_dist2 < (10 / 100 : ℚ) ^ 2)
        && decide (py thumb_tip < py index_mcp)
        && decide (py index_tip < py index_mcp) then
      some "HEART_HANDS"
    else if thumb_up && pinky_up && !index_up && !middle_up && !ring_up
        && decide (px thumb_tip < px wrist - 5 / 100) then
      some "CALL_ME"
    else if decide (py thumb_tip > py thumb_mcp + 5 / 100)
        && !index_up && !middle_up && !ring_up && !pinky_up then
      some "THUMBS_DOWN"
    else if !index_up && !middle_up && !ring_up && !pinky_up && !thumb_up
        && decide (py wrist > py index_mcp) then
      some "FIST_UP"
    else if index_up && middle_up && ring_up && pinky_up && !thumb_up
        && decide (index_middle_dist2 < (5 / 100 : ℚ) ^ 2)
        && decide (|py index_tip - py middle_tip| < 4 / 100) then
      some "STOP_HAND"
    else if index_up && middle_up && ring_up && pinky_up && !thumb_up
        && decide (py index_pip < py index_mcp)
        && decide (py middle_pip < py middle_mcp) then
      some "COME_HERE"
    else if index_up && middle_up && ring_up && pinky_up && thumb_up
        && decide (|px index_tip - px middle_tip| > 8 / 100) then
      some "WAIT_HAND"
    else if thumb_up && index_up && middle_up && !ring_up && !pinky_up
        && decide (thumb_index_dist2 < (12 / 100 : ℚ) ^ 2)
        && decide (thumb_middle_dist2 < (12 / 100 : ℚ) ^ 2) then
      some "LOVE_HEART"
    else if thumb_up && pinky_up && !index_up && !middle_up && !ring_up
        && decide (px thumb_tip > px wrist)
        && decide (thumb_pinky_dist2 > (12 / 100 : ℚ) ^ 2) then
      some "PHONE_CALL"
    else if index_up && middle_up && !ring_up && !pinky_up && !thumb_up
        && decide (py index_tip > py index_mcp - 5 / 100) then
      some "NOW_SIGN"
    else if index_up && !middle_up && !ring_up && !pinky_up && thumb_up
        && decide (|px thumb_tip - px index_tip| < 6 / 100) then
      some "FRIEND_LINK"
    else if decide (thumb_index_dist2 < (4 / 100 : ℚ) ^ 2)
        && decide (thumb_middle_dist2 < (4 / 100 : ℚ) ^ 2)
        && !ring_up && !pinky_up then
      some "MONEY_RUB"
    else if index_up && middle_up && ring_up && pinky_up && thumb_up
        && decide (py index_tip < py wrist - 12 / 100) then
      some "HOME_SIGN"
    else none

/-- Mutable state of `CompleteWordDetector`. -/
structure CWState : Type where
  detection_history : List String := []
  stability_threshold : ℕ := 8
  last_detected_word : Option String := none
  cooldown_frames : ℕ := 0
  cooldown_threshold : ℕ := 30

/-- Fresh `CompleteWordDetector()`. -/
def initCW : CWState := {}

/-- `CompleteWordDetector.detect_complete_word` for a flat landmark list
(the form every call site passes).  A list shorter than 63 values fails
the parsing branch and yields `None`.  The float stability guard
`count >= threshold * 0.7` is `10 * count ≥ 7 * threshold`. -/
def detect_complete_word (st : CWState) (lms : List ℚ) (_confidence : ℚ) :
    Option String × CWState :=
  if lms.length < 63 then (none, st)
  else if 0 < st.cooldown_frames then
    (none, { st with cooldown_frames := st.cooldown_frames - 1 })
  else
    match classify_word_gesture lms with
    | none => (none, st)
    | some g =>
        let h1 := st.detection_history ++ [g]
        let h2 :=
          if st.stability_threshold < h1.length then
            takeLast st.stability_threshold h1
          else h1
        let st1 := { st with detection_history := h2 }
        if st.stability_threshold ≤ h2.length then
          let recent := takeLast st.stability_threshold h2
          if 7 * st.stability_threshold ≤ 10 * recent.count g then
            match word_gestures.lookup g with
            | some w =>
                if st.last_detected_word ≠ some w then
                  (some w,
                   { st1 with last_detected_word := some w,
                              cooldown_frames := st.cooldown_threshold,
                              detection_history := [] })
                else (none, st1)
            | none => (none, st1)
          else (none, st1)
        else (none, st1)

/-! ## Gesture controls (`src/detector/gesture_controls.py`) -/

/-- The per-frame hand data dictionary built by
`AdvancedHandDetector` (`left`/`right` landmark lists, the parallel
`landmarks_list`, and the per-side confidence and quality entries). -/
structure HandsData : Type where
  left : Option (List ℚ) := none
  right : Option (List ℚ) := none
  landmarks_list : List (List ℚ) := []
  confidence_left : ℚ := 0
  confidence_right : ℚ := 0
  quality_left : ℚ := 0
  quality_right : ℚ := 0

/-- `GestureControls._is_fist`: no finger tip is above its base joint by
more than 0.03. -/
def is_fist (lms : List ℚ) : Bool :=
  let pairs : List (ℕ × ℕ) := [(4, 2), (8, 5), (12, 9), (16, 13), (20, 17)]
  (pairs.countP fun pr =>
    decide (py (pt lms pr.1) < py (pt lms pr.2) - 3 / 100)) = 0

/-- `GestureControls._is_hand_fully_open`: at least 4 finger tips above
their base joints by more than 0.02. -/
def is_hand_fully_open (lms : List ℚ) : Bool :=
  let pairs : List (ℕ × ℕ) := [(4, 2), (8, 5), (12, 9), (16, 13), (20, 17)]
  4 ≤ pairs.countP fun pr =>
    decide (py (pt lms pr.1) < py (pt lms pr.2) - 2 / 100)

/-- `GestureControls._detect_clear_gesture`: both hands present and both
fists.  A missing or empty hand fails the truthiness guard, and a hand
with fewer than 63 values makes the reshape/indexing raise, which the
source catches and turns into `False`. -/
def detect_clear_gesture : Option HandsData → Bool
  | none => false
  | some hd =>
      match hd.left, hd.right with
      | some l, some r =>
          if l.isEmpty || r.isEmpty then false
          else if l.length < 63 || r.length < 63 then false
          else is_fist l && is_fist r
      | _, _ => false

/-- `GestureControls._detect_space_both_hands`: both hands present and both
fully open (same failure handling as the clear gesture). -/
def detect_space_both_hands : Option HandsData → Bool
  | none => false
  | some hd =>
      match hd.left, hd.right with
      | some l, some r =>
          if l.isEmpty || r.isEmpty then false
          else if l.length < 63 || r.length < 63 then false
          else is_hand_fully_open l && is_hand_fully_open r
      | _, _ => false

/-- Mutable state of `GestureControls` (`control_history` is a deque with
`maxlen=8`). -/
structure CtlState : Type where
  control_history : List String := []
  last_control : Option String := none
  control_cooldown : ℕ := 0
  cooldown_frames : ℕ := 15
  controls_enabled : Bool := true

/-- Fresh `GestureControls()`. -/
def initCtl : CtlState := {}

/-- `GestureControls.process_control`. -/
def process_control (st : CtlState) (control_gesture : Option String)
    (both_hands_data : Option HandsData) : Option String × CtlState :=
  if 0 < st.control_cooldown then
    (none, { st with control_cooldown := st.control_cooldown - 1 })
  else
    match control_gesture with
    | none => (none, st)
    | some g0 =>
        if !st.controls_enabled then (none, st)
        else
          let step2 : Option String :=
            if g0 = "CLEAR_CANDIDATE" then
              if detect_clear_gesture both_hands_data then some "CLEAR"
              else none
            else some g0
          match step2 with
          | none => (none, st)
          | some g1 =>
              let step3 : Option String :=
                if g1 = "SPACE_CANDIDATE" then
                  if detect_space_both_hands both_hands_data then some "SPACE"
                  else none
                else some g1
              match step3 with
              | none => (none, st)
              | some g =>
                  let h1 := takeLast 8 (st.control_history ++ [g])
                  if 5 ≤ h1.length then
                    let recent := takeLast 5 h1
                    if 4 ≤ recent.count g then
                      if st.last_control ≠ some g then
                        (some g,
                         { st with control_history := h1,
                                   last_control := some g,
                                   control_cooldown := st.cooldown_frames })
                      else (none, { st with control_history := h1 })
                    else (none, { st with control_history := h1 })
                  else (none, { st with control_history := h1 })

/-! ## Quality gating (`src/detector/advanced_hand_detector.py`)

`AdvancedHandDetector.detect_hands` (the live definition, lines 52-85)
validates with `_validate_gestures_enhanced`.  The file also contains a
`_validate_gestures_fast` with a flat 0.3 cutoff; that definition ends up
attached to an overridden helper class and is dead code, but it is
embedded here as well since the specification describes its cutoff. -/

/-- `_validate_gestures_fast`: drop a present hand whose quality score is
below 0.3 (sets the side entry to `None` and its quality to 0;
`landmarks_list` is left untouched). -/
def validate_gestures_fast (hd : HandsData) : HandsData :=
  let hd1 :=
    if hd.left.isSome && decide (hd.quality_left < 3 / 10) then
      { hd with left := none, quality_left := 0 }
    else hd
  if hd1.right.isSome && decide (hd1.quality_right < 3 / 10) then
    { hd1 with right := none, quality_right := 0 }
  else hd1

/-- `_validate_gestures_enhanced`: drop a present hand only when its
quality is below the adaptive minimum (0.4 while the quality history is
short, else 0.5) AND its confidence is below 0.5.  `landmarks_list` is
left untouched.  `qhistLeft`/`qhistRight` are the lengths of
`quality_history` for each side. -/
def validate_gestures_enhanced (qhistLeft qhistRight : ℕ)
    (hd : HandsData) : HandsData :=
  let minqL : ℚ := if qhistLeft < 5 then 4 / 10 else 5 / 10
  let minqR : ℚ := if qhistRight < 5 then 4 / 10 else 5 / 10
  let hd1 :=
    if hd.left.isSome && decide (hd.quality_left < minqL)
        && decide (hd.confidence_left < 1 / 2) then
      { hd with left := none, quality_left := 0 }
    else hd
  if hd1.right.isSome && decide (hd1.quality_right < minqR)
      && decide (hd1.confidence_right < 1 / 2) then
    { hd1 with right := none, quality_right := 0 }
  else hd1

/-! ## GUI detection loop (`MainWindow.detection_loop`, lines 1355-1430)

The loop body for one captured frame, after `detect_hands` produced the
validated `HandsData`.  Priorities in the source: (1) complete words,
(2) control gestures, (3) letters or syllables.  The control step calls
`self.gesture_classifier.detect_control_gesture(landmarks)`, but the
`GestureClassifier` class defines no method of that name (the only
occurrence of `detect_control_gesture` in the repository is this call
site), so whenever it is reached with a nonempty `landmarks_list` the
call raises `AttributeError`; the blanket `except` of the loop catches it
and `continue`s, skipping the rest of the iteration including the final
`update_ui` call.  The outcome record makes the trace observable. -/

/-- `self.detection_mode` of `MainWindow` ("letters" / "syllables"). -/
inductive DetectionMode : Type
  | letters
  | syllables
deriving DecidableEq

/-- The pipeline state owned by `MainWindow` that the loop body mutates. -/
structure LoopState : Type where
  complete_word_mode_enabled : Bool := true
  detection_mode : DetectionMode := DetectionMode.letters
  word_st : CWState := {}
  ctl_st : CtlState := {}
  syl_st : SCState := {}

/-- Observable outcome of one iteration of `detection_loop`. -/
structure FrameOutcome : Type where
  /-- landmarks passed to `detect_complete_word`, when it was consulted -/
  word_consulted : Option (List ℚ) := none
  /-- the word emitted by the complete-word step, if any -/
  complete_word_result : Option String := none
  /-- the control step was entered -/
  control_consulted : Bool := false
  /-- the control step raised `AttributeError` (always, when entered) -/
  control_errored : Bool := false
  /-- `control_result` of the source -/
  control_result : Option String := none
  /-- `detected_result` of the source (letter or syllable) -/
  detected_result : Option String := none
  /-- the iteration reached an `update_ui` call -/
  ui_updated : Bool := false

/-- Python truthiness of an optional landmark list. -/
def truthyLms : Option (List ℚ) → Bool
  | none => false
  | some l => !l.isEmpty

/-- Priorities 2 and 3 of the loop body (entered when the complete-word
step did not emit; `wc` records what the word step was consulted with). -/
def detection_loop_rest (st : LoopState) (hd : HandsData)
    (wc : Option (List ℚ)) : FrameOutcome × LoopState :=
  if !hd.landmarks_list.isEmpty then
    ({ word_consulted := wc, control_consulted := true,
       control_errored := true }, st)
  else
    match st.detection_mode with
    | DetectionMode.syllables =>
        if truthyLms hd.left && truthyLms hd.right then
          let r := predict_syllable st.syl_st hd.left hd.right
          ({ word_consulted := wc, detected_result := r.1,
             ui_updated := true },
           { st with syl_st := r.2 })
        else
          ({ word_consulted := wc, ui_updated := true }, st)
    | DetectionMode.letters =>
        ({ word_consulted := wc, ui_updated := true }, st)

/-- One iteration of `MainWindow.detection_loop` on a validated frame. -/
def detection_loop_body (st : LoopState) (hd : HandsData) :
    FrameOutcome × LoopState :=
  if st.complete_word_mode_enabled && !hd.landmarks_list.isEmpty then
    let lms := hd.landmarks_list.headD []
    let conf :=
      if hd.confidence_left ≠ 0 then hd.confidence_left
      else hd.confidence_right
    let r := detect_complete_word st.word_st lms conf
    let st1 := { st with word_st := r.2 }
    match r.1 with
    | some w =>
        ({ word_consulted := some lms, complete_word_result := some w,
           ui_updated := true }, st1)
    | none => detection_loop_rest st1 hd (some lms)
  else
    detection_loop_rest st hd none

/-- Fresh pipeline state of `MainWindow` (word mode on, letters mode). -/
def initLoop : LoopState := {}

/-! ## Concrete frames used to evaluate the pipeline -/

/-- Flatten 21 landmark points into the 63-value list the detector emits. -/
def mkLms (ps : List Point) : List ℚ :=
  ps.flatMap fun p => [p.1, p.2.1, p.2.2]

/-- A closed fist (thumb beside the folded fingers): satisfies
`GestureControls._is_fist`, and its features satisfy the A clause of the
letter cascade (`fist`, `thumb_left`, thumb not extended). -/
def fistLm : List ℚ :=
  mkLms
    [(0.5, 0.9, 0), (0.40, 0.80, 0), (0.38, 0.75, 0), (0.37, 0.73, 0),
     (0.36, 0.74, 0), (0.45, 0.70, 0), (0.45, 0.65, 0), (0.45, 0.68, 0),
     (0.45, 0.72, 0), (0.50, 0.70, 0), (0.50, 0.64, 0), (0.50, 0.68, 0),
     (0.50, 0.73, 0), (0.55, 0.70, 0), (0.55, 0.65, 0), (0.55, 0.68, 0),
     (0.55, 0.72, 0), (0.60, 0.71, 0), (0.60, 0.67, 0), (0.60, 0.69, 0),
     (0.60, 0.72, 0)]

/-- A thumbs-up hand: classifies as the `THUMBS_UP` word gesture. -/
def thumbsUpLm : List ℚ :=
  mkLms
    [(0.5, 0.9, 0), (0.42, 0.80, 0), (0.40, 0.74, 0), (0.38, 0.68, 0),
     (0.36, 0.60, 0), (0.45, 0.70, 0), (0.45, 0.65, 0), (0.45, 0.68, 0),
     (0.45, 0.72, 0), (0.50, 0.70, 0), (0.50, 0.64, 0), (0.50, 0.68, 0),
     (0.50, 0.73, 0), (0.55, 0.70, 0), (0.55, 0.65, 0), (0.55, 0.68, 0),
     (0.55, 0.72, 0), (0.60, 0.71, 0), (0.60, 0.67, 0), (0.60, 0.69, 0),
     (0.60, 0.72, 0)]

/-- Four straight fingers held together, thumb folded: the B clause of
the letter cascade. -/
def lmB : List ℚ :=
  mkLms
    [(0.5, 0.9, 0), (0.40, 0.80, 0), (0.38, 0.76, 0), (0.36, 0.73, 0),
     (0.35, 0.72, 0), (0.47, 0.70, 0), (0.47, 0.60, 0), (0.47, 0.55, 0),
     (0.47, 0.50, 0), (0.50, 0.70, 0), (0.50, 0.58, 0), (0.50, 0.52, 0),
     (0.50, 0.47, 0), (0.53, 0.70, 0), (0.53, 0.60, 0), (0.53, 0.55, 0),
     (0.53, 0.49, 0), (0.57, 0.71, 0), (0.57, 0.63, 0), (0.57, 0.58, 0),
     (0.57, 0.54, 0)]

/-- Left hand for the syllable test: thumb extended, fingers folded
(the M clause of `_detect_consonant`). -/
def lmM : List ℚ :=
  mkLms
    [(0.5, 0.9, 0), (0.42, 0.75, 0), (0.40, 0.70, 0), (0.40, 0.60, 0),
     (0.38, 0.50, 0), (0.45, 0.55, 0), (0.45, 0.60, 0), (0.45, 0.65, 0),
     (0.45, 0.70, 0), (0.50, 0.55, 0), (0.50, 0.60, 0), (0.50, 0.65, 0),
     (0.50, 0.70, 0), (0.55, 0.55, 0), (0.55, 0.60, 0), (0.55, 0.65, 0),
     (0.55, 0.70, 0), (0.60, 0.55, 0), (0.60, 0.60, 0), (0.60, 0.65, 0),
     (0.60, 0.70, 0)]

/-- Right hand for the syllable test: everything folded
(the A clause of `_detect_vowel`). -/
def lmA : List ℚ :=
  mkLms
    [(0.5, 0.9, 0), (0.42, 0.75, 0), (0.40, 0.70, 0), (0.40, 0.60, 0),
     (0.38, 0.70, 0), (0.45, 0.55, 0), (0.45, 0.60, 0), (0.45, 0.65, 0),
     (0.45, 0.70, 0), (0.50, 0.55, 0), (0.50, 0.60, 0), (0.50, 0.65, 0),
     (0.50, 0.70, 0), (0.55, 0.55, 0), (0.55, 0.60, 0), (0.55, 0.65, 0),
     (0.55, 0.70, 0), (0.60, 0.55, 0), (0.60, 0.60, 0), (0.60, 0.65, 0),
     (0.60, 0.70, 0)]

/-- Frame with two closed fists at full confidence. -/
def hdC1 : HandsData :=
  { left := some fistLm, right := some fistLm,
    landmarks_list := [fistLm, fistLm],
    confidence_left := 0.9, confidence_right := 0.9,
    quality_left := 0.9, quality_right := 0.9 }

/-- Frame with one thumbs-up hand at full confidence. -/
def hdC4 : HandsData :=
  { left := some thumbsUpLm, landmarks_list := [thumbsUpLm],
    confidence_left := 0.9, quality_left := 0.9 }

/-- Pipeline state whose word detector has already seen seven
`THUMBS_UP` frames. -/
def stC4 : LoopState :=
  { word_st :=
    { detection_history :=
        ["THUMBS_UP", "THUMBS_UP", "THUMBS_UP", "THUMBS_UP",
         "THUMBS_UP", "THUMBS_UP", "THUMBS_UP"] } }

/-- Frame with one closed fist at low confidence and quality. -/
def hdC5 : HandsData :=
  { left := some fistLm, landmarks_list := [fistLm],
    confidence_left := 0.2, quality_left := 0.2 }

/-! ## Label-stream runs for the stabilizer claims -/

/-- Outputs of the letter-stream stabilization block over a raw label
sequence. -/
def letter_run (thr : ℕ) (hist : List (Option String)) :
    List (Option String) → List (Option String)
  | [] => []
  | c :: rest =>
      let r := letter_stabilize thr hist c
      r.1 :: letter_run thr r.2 rest

/-- Outputs of the syllable-stream stabilizer over a raw label sequence. -/
def syll_run (thr : ℕ) (hist : List (Option String)) :
    List (Option String) → List (Option String)
  | [] => []
  | c :: rest =>
      let r := stabilize_detection thr hist c
      r.1 :: syll_run thr r.2 rest

/-- Confirmed words of a run of `detect_complete_word` over a sequence of
(landmarks, confidence) frames. -/
def word_run (st : CWState) : List (List ℚ × ℚ) → List String
  | [] => []
  | x :: rest =>
      let r := detect_complete_word st x.1 x.2
      match r.1 with
      | some w => w :: word_run r.2 rest
      | none => word_run r.2 rest

/-- Confirmed controls of a run of `process_control`. -/
def ctl_run (st : CtlState) :
    List (Option String × Option HandsData) → List String
  | [] => []
  | x :: rest =>
      let r := process_control st x.1 x.2
      match r.1 with
      | some c => c :: ctl_run r.2 rest
      | none => ctl_run r.2 rest

/-- The alternating label stream `a, b, a, b, ...` of length `n`
(chronological order). -/
def altTo (a b : String) : ℕ → List (Option String)
  | 0 => []
  | n + 1 => altTo a b n ++ [if n % 2 = 0 then some a else some b]

/-- The `n` labels of the alternating stream starting at frame `k`. -/
def altFrom (a b : String) (k : ℕ) : ℕ → List (Option String)
  | 0 => []
  | n + 1 => (if k % 2 = 0 then some a else some b) :: altFrom a b (k + 1) n

/-! ## Replaying one fixture through `predict_gesture` -/

/-- Result and state of the `n`-th call of `predict_gesture` on a fixed
fixture, starting from a fresh classifier (call `0` is the initial
state). -/
noncomputable def letter_replay (lms : List ℚ) : ℕ → Option String × GCState
  | 0 => (none, { : GCState })
  | n + 1 => predict_gesture (letter_replay lms n).2 lms

/-- Length of `detection_history` after `n` replayed calls (append each
call, truncate to the last 4 once the length exceeds 8). -/
def histLen : ℕ → ℕ
  | 0 => 0
  | n + 1 => if 8 < histLen n + 1 then 4 else histLen n + 1

/-- The constant per-call validated label of a replayed fixture: the
cascade letter if its mean confidence clears the threshold. -/
noncomputable def replay_valid (lms : List ℚ) : Option String :=
  match classify_complete_alphabet lms with
  | none => none
  | some l =>
      if (65 / 100 : ℚ) ≤ calculate_gesture_confidence l lms then some l
      else none

/-- The `confidence_scores` dictionary after `n` replayed calls. -/
noncomputable def replay_scores (lms : List ℚ) (n : ℕ) : ConfScores :=
  match classify_complete_alphabet lms with
  | none => fun _ => []
  | some l =>
      fun x =>
        if x = l then
          List.replicate (min n 10) (calculate_gesture_confidence l lms)
        else []

/-- Iterating `predict_syllable` on the fixed M/A two-hand frame from a
fresh syllable classifier. -/
def syll_iter : ℕ → Option String × SCState
  | 0 => (none, initSC)
  | n + 1 => predict_syllable (syll_iter n).2 (some lmM) (some lmA)

/-! ## Helper lemmas on list slices -/

lemma takeLast_suffix {α : Type} (n : ℕ) (l : List α) : takeLast n l <:+ l :=
  List.drop_suffix _ _

lemma takeLast_length_le {α : Type} (n : ℕ) (l : List α) :
    (takeLast n l).length ≤ n := by
  unfold takeLast
  rw [List.length_drop]
  omega

lemma takeLast_of_length_le {α : Type} {n : ℕ} {l : List α}
    (h : l.length ≤ n) : takeLast n l = l := by
  unfold takeLast
  have : l.length - n = 0 := by omega
  rw [this, List.drop_zero]

lemma takeLast_idem {α : Type} (n : ℕ) (l : List α) :
    takeLast n (takeLast n l) = takeLast n l :=
  takeLast_of_length_le (takeLast_length_le n l)

lemma takeLast_replicate {α : Type} (n m : ℕ) (x : α) :
    takeLast n (List.replicate m x) = List.replicate (m - (m - n)) x := by
  unfold takeLast
  rw [List.length_replicate, List.drop_replicate]

lemma suffix_append_singleton {α : Type} {w l : List α} {x : α}
    (h : w <:+ l ++ [x]) : w = [] ∨ ∃ s, s <:+ l ∧ w = s ++ [x] := by
  rcases w.eq_nil_or_concat with hw | ⟨s, y, hw⟩
  · exact Or.inl hw
  · obtain ⟨t, ht⟩ := h
    rw [hw, List.concat_eq_append, ← List.append_assoc] at ht
    have hlen : ([y] : List α).length = ([x] : List α).length := rfl
    obtain ⟨h1, h2⟩ := List.append_inj' ht hlen
    refine Or.inr ⟨s, ⟨t, h1⟩, ?_⟩
    rw [hw, List.concat_eq_append, h2]

lemma listMean_replicate {n : ℕ} (hn : n ≠ 0) (s : ℚ) :
    listMean (List.replicate n s) = s := by
  unfold listMean
  rw [List.sum_replicate, List.length_replicate]
  simp only [nsmul_eq_mul]
  rw [mul_comm, mul_div_assoc, div_self (by exact_mod_cast hn), mul_one]

/-! ## Claim C8: the joint-angle computation is total -/

/-- Claim C8 (confirmed): `_angle` is total and never raises a domain
error: when either of the two vectors formed at the middle point is zero
the result is `0`, and otherwise the cosine is clamped to `[-1, 1]` before
the arc cosine, so the result is always a defined angle in `[0, 180]`
degrees. -/
theorem C8_thm (p1 p2 p3 : ℝ × ℝ × ℝ) :
    ((p1 = p2 ∨ p3 = p2) → angle_deg p1 p2 p3 = 0)
      ∧ 0 ≤ angle_deg p1 p2 p3 ∧ angle_deg p1 p2 p3 ≤ 180 := by
  have hπ := Real.pi_pos
  constructor
  · intro h
    unfold angle_deg
    have hz : normR (subR p1 p2) = 0 ∨ normR (subR p3 p2) = 0 := by
      rcases h with h | h
      · left
        simp [h, subR, normR, dotR]
      · right
        simp [h, subR, normR, dotR]
    simp only [hz, if_true]
  · unfold angle_deg
    by_cases hz : normR (subR p1 p2) = 0 ∨ normR (subR p3 p2) = 0
    · simp only [hz, if_true]
      norm_num
    · simp only [hz, if_false]
      set c := min (max (dotR (subR p1 p2) (subR p3 p2) /
        (normR (subR p1 p2) * normR (subR p3 p2))) (-1)) 1 with hc
      have h0 : 0 ≤ Real.arccos c := Real.arccos_nonneg c
      have h1 : Real.arccos c ≤ Real.pi := Real.arccos_le_pi c
      constructor
      · positivity
      · rw [div_le_iff₀ hπ]
        nlinarith

/-- Claim C8 witness: the theorem applied at a degenerate and a
nondegenerate concrete triple. -/
theorem C8_witness :
    angle_deg ((0 : ℝ), (0 : ℝ), (0 : ℝ)) ((0 : ℝ), (0 : ℝ), (0 : ℝ))
        ((1 : ℝ), (0 : ℝ), (0 : ℝ)) = 0
      ∧ 0 ≤ angle_deg ((1 : ℝ), (0 : ℝ), (0 : ℝ)) ((0 : ℝ), (0 : ℝ), (0 : ℝ))
          ((0 : ℝ), (1 : ℝ), (0 : ℝ)) :=
  ⟨(C8_thm _ _ _).1 (Or.inl rfl), (C8_thm _ _ _).2.1⟩

/-! ## Claim C9: fewer than 21 landmarks means hand absent -/

/-- Claim C9 (confirmed): for every hand input with fewer than 63
coordinate values (fewer than 21 landmarks), the letter classifier, the
per-hand syllable letter detection, and the complete-word detector all
treat the hand as absent and return `None`, leaving their state
untouched, instead of raising. -/
theorem C9_thm (st : GCState) (stw : CWState) (lms : List ℚ) (c : ℚ)
    (side : HandSide) (h : lms.length < 63) :
    predict_gesture st lms = (none, st)
      ∧ detect_letter_in_hand lms side = none
      ∧ detect_complete_word stw lms c = (none, stw) := by
  have hd : decide (lms.length < 63) = true := decide_eq_true h
  refine ⟨?_, ?_, ?_⟩
  · unfold predict_gesture
    simp [hd]
  · unfold detect_letter_in_hand
    simp [hd]
  · unfold detect_complete_word
    simp [if_pos h]

/-- Claim C9 witness: the theorem at a concrete 3-value input. -/
theorem C9_witness :
    predict_gesture { : GCState } [1, 2, 3] = (none, { : GCState })
      ∧ detect_letter_in_hand [1, 2, 3] HandSide.left = none
      ∧ detect_complete_word initCW [1, 2, 3] 1 = (none, initCW) :=
  C9_thm { : GCState } initCW [1, 2, 3] 1 HandSide.left (by norm_num)

/-! ## Claim C10: the syllable combiner -/

/-- The syllable stabilizer either abstains or returns exactly the label
it was fed this frame. -/
lemma stabilize_detection_fst (thr : ℕ) (hist : List (Option String))
    (cur : Option String) :
    (stabilize_detection thr hist cur).1 = none
      ∨ (stabilize_detection thr hist cur).1 = cur := by
  cases cur with
  | none =>
      left
      simp only [stabilize_detection]
      split <;> (split <;> rfl)
  | some s =>
      simp only [stabilize_detection]
      split
      · split
        · split
          · right; rfl
          · left; rfl
        · left; rfl
      · split
        · split
          · right; rfl
          · left; rfl
        · left; rfl

/-- The syllable stabilizer only confirms the label it was fed this
frame. -/
lemma stabilize_detection_fst_some {thr : ℕ} {hist : List (Option String)}
    {cur : Option String} {s : String}
    (h : (stabilize_detection thr hist cur).1 = some s) : cur = some s := by
  rcases stabilize_detection_fst thr hist cur with h0 | h0
  · rw [h0] at h
    exact absurd h (by simp)
  · rw [h0] at h
    exact h

set_option maxHeartbeats 2000000 in
/-- Running the M/A fixture pair: no event on frame 7. -/
lemma syll_iter_seven : (syll_iter 7).1 = none := by
  have hMA : ("M" ++ "A" : String) = "MA" := rfl
  norm_num [syll_iter, predict_syllable, initSC, detect_letter_in_hand,
    extract_hand_features, detect_consonant, detect_vowel,
    combine_letters_to_syllable, supported_syllables, stabilize_detection,
    takeLast, pt, py, px, d2, lmM, lmA, mkLms, List.count_cons, hMA]

set_option maxHeartbeats 2000000 in
/-- Running the M/A fixture pair: "MA" is confirmed on frame 8. -/
lemma syll_iter_eight : (syll_iter 8).1 = some "MA" := by
  have hMA : ("M" ++ "A" : String) = "MA" := rfl
  norm_num [syll_iter, predict_syllable, initSC, detect_letter_in_hand,
    extract_hand_features, detect_consonant, detect_vowel,
    combine_letters_to_syllable, supported_syllables, stabilize_detection,
    takeLast, pt, py, px, d2, lmM, lmA, mkLms, List.count_cons, hMA]

/-- Claim C10 (confirmed): the syllable combiner emits a two-character
syllable only when the left hand resolves to a consonant, the right hand
to a vowel, and their concatenation is in the supported-syllable set;
and fed the M/A two-hand fixture for a sustained window it confirms
"MA" at the eighth frame (and nothing at the seventh). -/
theorem C10_thm :
    (∀ (st : SCState) (l r : List ℚ) (s : String),
        (predict_syllable st (some l) (some r)).1 = some s →
          s ∈ supported_syllables
            ∧ ∃ c v, detect_letter_in_hand l HandSide.left = some c
                ∧ detect_letter_in_hand r HandSide.right = some v
                ∧ s = c ++ v)
      ∧ (syll_iter 8).1 = some "MA" ∧ (syll_iter 7).1 = none := by
  refine ⟨?_, syll_iter_eight, syll_iter_seven⟩
  intro st l r s h
  unfold predict_syllable at h
  dsimp only at h
  by_cases he : (l.isEmpty || r.isEmpty) = true
  · rw [if_pos he] at h
    exact absurd h (by simp)
  · rw [if_neg he] at h
    dsimp only at h
    have hcur := stabilize_detection_fst_some h
    unfold combine_letters_to_syllable at hcur
    cases hc : detect_letter_in_hand l HandSide.left with
    | none => rw [hc] at hcur; exact absurd hcur (by simp)
    | some c =>
        cases hv : detect_letter_in_hand r HandSide.right with
        | none => rw [hc, hv] at hcur; exact absurd hcur (by simp)
        | some v =>
            rw [hc, hv] at hcur
            dsimp only at hcur
            split at hcur
            · next hmem =>
                have hs := Option.some_inj.mp hcur
                exact ⟨hs ▸ hmem, c, v, rfl, rfl, hs.symm⟩
            · exact absurd hcur (by simp)

/-- Claim C10 witness: the soundness part applied to the confirmed
eighth frame of the M/A run. -/
theorem C10_witness :
    "MA" ∈ supported_syllables
      ∧ ∃ c v, detect_letter_in_hand lmM HandSide.left = some c
          ∧ detect_letter_in_hand lmA HandSide.right = some v
          ∧ "MA" = c ++ v :=
  C10_thm.1 (syll_iter 7).2 lmM lmA "MA" C10_thm.2.1

/-! ## Loop-level evaluations and claims C1, C2, C4, C5 -/

/-- Fields of the outcome produced by priorities 2 and 3 of the loop. -/
lemma detection_loop_rest_fields (st : LoopState) (hd : HandsData)
    (wc : Option (List ℚ)) :
    (detection_loop_rest st hd wc).1.word_consulted = wc
      ∧ (detection_loop_rest st hd wc).1.complete_word_result = none
      ∧ (detection_loop_rest st hd wc).1.control_consulted
          = !hd.landmarks_list.isEmpty
      ∧ (detection_loop_rest st hd wc).1.control_errored
          = !hd.landmarks_list.isEmpty
      ∧ (detection_loop_rest st hd wc).1.control_result = none
      ∧ (detection_loop_rest st hd wc).1.ui_updated
          = hd.landmarks_list.isEmpty
      ∧ (hd.landmarks_list.isEmpty = false →
          (detection_loop_rest st hd wc).1.detected_result = none) := by
  unfold detection_loop_rest
  by_cases he : hd.landmarks_list.isEmpty = true
  · simp only [he, Bool.not_true, Bool.false_eq_true, if_false]
    split
    · split <;> simp [he]
    · simp [he]
  · have he' : hd.landmarks_list.isEmpty = false := by
      revert he
      cases hd.landmarks_list.isEmpty <;> simp
    simp [he']

/-- Evaluating the loop on the two-fists frame from a fresh pipeline:
the word step abstains (history too short) and the frame dies in the
control step. -/
lemma loop_C1_eval :
    (detection_loop_body initLoop hdC1).1 =
      { word_consulted := some fistLm, control_consulted := true,
        control_errored := true } := by
  norm_num [detection_loop_body, detection_loop_rest, initLoop, hdC1,
    detect_complete_word, classify_word_gesture, w_thumb_up, w_index_up,
    w_middle_up, w_ring_up, w_pinky_up, initCW, takeLast, pt, py, px, d2,
    fistLm, mkLms]

/-- Evaluating the loop on the primed thumbs-up frame: the word step
confirms "HOLA", updates the UI, and the control step is never
entered. -/
lemma loop_C4_eval :
    (detection_loop_body stC4 hdC4).1 =
      { word_consulted := some thumbsUpLm,
        complete_word_result := some "HOLA", ui_updated := true } := by
  norm_num [detection_loop_body, detection_loop_rest, stC4, hdC4,
    detect_complete_word, classify_word_gesture, w_thumb_up, w_index_up,
    w_middle_up, w_ring_up, w_pinky_up, takeLast, pt, py, px, d2,
    thumbsUpLm, mkLms, List.count_cons, word_gestures, List.lookup,
    (show (none : Option String) ≠ some "HOLA" by simp)]

lemma fistLm_length : fistLm.length = 63 := by
  norm_num [fistLm, mkLms]

lemma fistLm_isEmpty : fistLm.isEmpty = false := by
  norm_num [fistLm, mkLms]

lemma is_fist_fistLm : is_fist fistLm = true := by
  norm_num [is_fist, List.countP_cons, pt, py, fistLm, mkLms]

lemma fist_fistLm : fist fistLm = true := by
  norm_num [fist, fingers_count, thumb_ext, index_ext, middle_ext,
    ring_ext, pinky_ext, pt, py, fistLm, mkLms]

lemma thumb_left_fistLm : thumb_left fistLm = true := by
  norm_num [thumb_left, pt, px, fistLm, mkLms]

lemma thumb_ext_fistLm : thumb_ext fistLm = false := by
  norm_num [thumb_ext, pt, py, fistLm, mkLms]

/-- Claim C1 (code bug): a frame whose hand data satisfies the both-fists
Clear control predicate, and whose hands also satisfy the A clause of the
letter cascade (closed fist, thumb beside the fingers), is skipped
entirely by the detection loop: the control step calls the undefined
`detect_control_gesture` and the raised `AttributeError` aborts the
iteration, so the pipeline yields neither the Control event promised by
the claim nor a Letter event. -/
theorem C1_thm :
    detect_clear_gesture (some hdC1) = true
      ∧ (fist fistLm = true ∧ thumb_left fistLm = true
          ∧ thumb_ext fistLm = false)
      ∧ (detection_loop_body initLoop hdC1).1.control_errored = true
      ∧ (detection_loop_body initLoop hdC1).1.control_result = none
      ∧ (detection_loop_body initLoop hdC1).1.detected_result = none
      ∧ (detection_loop_body initLoop hdC1).1.complete_word_result = none
      ∧ (detection_loop_body initLoop hdC1).1.ui_updated = false := by
  refine ⟨?_, ⟨fist_fistLm, thumb_left_fistLm, thumb_ext_fistLm⟩,
    ?_, ?_, ?_, ?_, ?_⟩
  · simp [detect_clear_gesture, hdC1, is_fist_fistLm, fistLm_length,
      fistLm_isEmpty]
  · rw [loop_C1_eval]
  · rw [loop_C1_eval]
  · rw [loop_C1_eval]
  · rw [loop_C1_eval]
  · rw [loop_C1_eval]

/-- When the word step runs and confirms a word, the iteration ends with
a UI update and the control step is never entered. -/
lemma loop_out_word_some (st : LoopState) (hd : HandsData) (w : String)
    (hmode : st.complete_word_mode_enabled = true)
    (hne : hd.landmarks_list.isEmpty = false)
    (hr : (detect_complete_word st.word_st (hd.landmarks_list.headD [])
        (if hd.confidence_left ≠ 0 then hd.confidence_left
         else hd.confidence_right)).1 = some w) :
    (detection_loop_body st hd).1 =
      { word_consulted := some (hd.landmarks_list.headD []),
        complete_word_result := some w, ui_updated := true } := by
  have hcondT : (st.complete_word_mode_enabled
      && !hd.landmarks_list.isEmpty) = true := by
    rw [hmode, hne]
    rfl
  unfold detection_loop_body
  dsimp only
  rw [if_pos hcondT, hr]

/-- When the word step runs and abstains, the control step is entered and
errors. -/
lemma loop_out_word_none (st : LoopState) (hd : HandsData)
    (hmode : st.complete_word_mode_enabled = true)
    (hne : hd.landmarks_list.isEmpty = false)
    (hr : (detect_complete_word st.word_st (hd.landmarks_list.headD [])
        (if hd.confidence_left ≠ 0 then hd.confidence_left
         else hd.confidence_right)).1 = none) :
    (detection_loop_body st hd).1 =
      { word_consulted := some (hd.landmarks_list.headD []),
        control_consulted := true, control_errored := true } := by
  have hcondT : (st.complete_word_mode_enabled
      && !hd.landmarks_list.isEmpty) = true := by
    rw [hmode, hne]
    rfl
  have hneT : (!hd.landmarks_list.isEmpty) = true := by
    rw [hne]
    rfl
  unfold detection_loop_body
  dsimp only
  rw [if_pos hcondT, hr]
  unfold detection_loop_rest
  rw [if_pos hneT]

/-- When the word step is skipped, the body is priorities 2 and 3 with no
word consultation. -/
lemma loop_out_cond_false (st : LoopState) (hd : HandsData)
    (hcond : (st.complete_word_mode_enabled
        && !hd.landmarks_list.isEmpty) = false) :
    (detection_loop_body st hd).1 = (detection_loop_rest st hd none).1 := by
  unfold detection_loop_body
  dsimp only
  rw [if_neg (by simp [hcond])]

/-- Claim C4 (corrected, amended part): for every frame with at least one
detected hand on which the complete-word step does not emit, the control
step is entered, its call to the undefined
`GestureClassifier.detect_control_gesture` raises `AttributeError`, the
blanket handler catches it, and the frame is skipped: no letter,
syllable, control, or UI update is produced. -/
theorem C4_amended_thm (st : LoopState) (hd : HandsData)
    (hnon : hd.landmarks_list ≠ [])
    (hw : (detection_loop_body st hd).1.complete_word_result = none) :
    (detection_loop_body st hd).1.control_consulted = true
      ∧ (detection_loop_body st hd).1.control_errored = true
      ∧ (detection_loop_body st hd).1.ui_updated = false
      ∧ (detection_loop_body st hd).1.control_result = none
      ∧ (detection_loop_body st hd).1.detected_result = none := by
  have hne : hd.landmarks_list.isEmpty = false := by
    cases hl : hd.landmarks_list with
    | nil => exact absurd hl hnon
    | cons x xs => rfl
  by_cases hmode : st.complete_word_mode_enabled = true
  · cases hr : (detect_complete_word st.word_st (hd.landmarks_list.headD [])
        (if hd.confidence_left ≠ 0 then hd.confidence_left
         else hd.confidence_right)).1 with
    | some w =>
        rw [loop_out_word_some st hd w hmode hne hr] at hw
        exact absurd hw (by simp)
    | none =>
        rw [loop_out_word_none st hd hmode hne hr]
        exact ⟨rfl, rfl, rfl, rfl, rfl⟩
  · have hcond : (st.complete_word_mode_enabled
        && !hd.landmarks_list.isEmpty) = false := by
      revert hmode
      cases st.complete_word_mode_enabled <;> simp
    have hrest := detection_loop_rest_fields st hd none
    rw [loop_out_cond_false st hd hcond]
    rw [hne] at hrest
    exact ⟨hrest.2.2.1, hrest.2.2.2.1, hrest.2.2.2.2.2.1,
      hrest.2.2.2.2.1, hrest.2.2.2.2.2.2 rfl⟩

/-- Claim C4 (corrected, counterexample): on the primed thumbs-up frame a
hand is present, yet the iteration does update the UI and the control
step neither runs nor errors, because the complete-word step pre-empts it
before the undefined method is reached. -/
theorem C4_counterexample :
    hdC4.landmarks_list ≠ []
      ∧ (detection_loop_body stC4 hdC4).1.ui_updated = true
      ∧ (detection_loop_body stC4 hdC4).1.control_consulted = false
      ∧ (detection_loop_body stC4 hdC4).1.control_errored = false := by
  refine ⟨by simp [hdC4], ?_, ?_, ?_⟩ <;> rw [loop_C4_eval]

/-- Claim C4 witness: the amended theorem applied to the two-fists frame
from a fresh pipeline. -/
theorem C4_witness :
    (detection_loop_body initLoop hdC1).1.control_consulted = true
      ∧ (detection_loop_body initLoop hdC1).1.control_errored = true
      ∧ (detection_loop_body initLoop hdC1).1.ui_updated = false
      ∧ (detection_loop_body initLoop hdC1).1.control_result = none
      ∧ (detection_loop_body initLoop hdC1).1.detected_result = none :=
  C4_amended_thm initLoop hdC1 (by simp [hdC1]) (by rw [loop_C1_eval])

/-- Claim C2 (corrected, amended part): in the GUI loop the complete-word
step runs first: it is consulted whenever complete-word mode is enabled
and a hand is present, regardless of the control step; a confirmed
complete word skips the control step for that frame; and the control
step is entered only when the complete-word step produced no word. -/
theorem C2_amended_thm (st : LoopState) (hd : HandsData) :
    (st.complete_word_mode_enabled = true → hd.landmarks_list ≠ [] →
        (detection_loop_body st hd).1.word_consulted
          = some (hd.landmarks_list.headD []))
      ∧ ((detection_loop_body st hd).1.complete_word_result ≠ none →
          (detection_loop_body st hd).1.control_consulted = false)
      ∧ ((detection_loop_body st hd).1.control_consulted = true →
          (detection_loop_body st hd).1.complete_word_result = none) := by
  by_cases hemp : hd.landmarks_list.isEmpty = true
  · have hcond : (st.complete_word_mode_enabled
        && !hd.landmarks_list.isEmpty) = false := by
      rw [hemp]
      cases st.complete_word_mode_enabled <;> rfl
    have hrest := detection_loop_rest_fields st hd none
    rw [loop_out_cond_false st hd hcond] at *
    refine ⟨?_, ?_, ?_⟩
    · intro _ hnon
      exact absurd (by simpa using hemp) hnon
    · intro hcw
      exact absurd hrest.2.1 hcw
    · intro _
      exact hrest.2.1
  · have hne : hd.landmarks_list.isEmpty = false := by
      revert hemp
      cases hd.landmarks_list.isEmpty <;> simp
    by_cases hmode : st.complete_word_mode_enabled = true
    · cases hr : (detect_complete_word st.word_st
          (hd.landmarks_list.headD [])
          (if hd.confidence_left ≠ 0 then hd.confidence_left
           else hd.confidence_right)).1 with
      | some w =>
          rw [loop_out_word_some st hd w hmode hne hr]
          exact ⟨fun _ _ => rfl, fun _ => rfl, fun h => absurd h (by simp)⟩
      | none =>
          rw [loop_out_word_none st hd hmode hne hr]
          exact ⟨fun _ _ => rfl, fun h => absurd rfl h, fun _ => rfl⟩
    · have hcond : (st.complete_word_mode_enabled
          && !hd.landmarks_list.isEmpty) = false := by
        revert hmode
        cases st.complete_word_mode_enabled <;> simp
      have hrest := detection_loop_rest_fields st hd none
      rw [loop_out_cond_false st hd hcond] at *
      exact ⟨fun h _ => absurd h hmode, fun h => absurd hrest.2.1 h,
        fun _ => hrest.2.1⟩

/-- Claim C2 (corrected, counterexample): on the primed thumbs-up frame
the complete-word classifier is consulted and even emits "HOLA" although
the control classifier was never evaluated on that frame, so the
complete-word step is not gated on a control abstention. -/
theorem C2_counterexample :
    (detection_loop_body stC4 hdC4).1.complete_word_result = some "HOLA"
      ∧ (detection_loop_body stC4 hdC4).1.word_consulted = some thumbsUpLm
      ∧ (detection_loop_body stC4 hdC4).1.control_consulted = false := by
  refine ⟨?_, ?_, ?_⟩ <;> rw [loop_C4_eval]

/-- Claim C2 witness: the amended theorem applied to the primed
thumbs-up frame. -/
theorem C2_witness :
    (detection_loop_body stC4 hdC4).1.word_consulted
        = some (hdC4.landmarks_list.headD [])
      ∧ (detection_loop_body stC4 hdC4).1.control_consulted = false :=
  ⟨(C2_amended_thm stC4 hdC4).1 rfl (by simp [hdC4]),
   (C2_amended_thm stC4 hdC4).2.1 (by rw [loop_C4_eval]; simp)⟩

/-! ## Claim C5: quality gating -/

/-- Claim C5 (corrected, amended part): a present hand whose quality is
below the adaptive cutoff and whose confidence is below 0.5 has its
per-side entry removed and its quality zeroed (so the syllable step and
every other per-side consumer treat it as undetected), but
`landmarks_list` is left untouched, so the same landmarks still reach the
classifiers that read `landmarks_list`. -/
theorem C5_amended_thm (qhL qhR : ℕ) (hd : HandsData) :
    (validate_gestures_enhanced qhL qhR hd).landmarks_list
        = hd.landmarks_list
      ∧ (hd.quality_left < (if qhL < 5 then (4 : ℚ) / 10 else 5 / 10) →
          hd.confidence_left < 1 / 2 →
          (validate_gestures_enhanced qhL qhR hd).left = none)
      ∧ (hd.quality_right < (if qhR < 5 then (4 : ℚ) / 10 else 5 / 10) →
          hd.confidence_right < 1 / 2 →
          (validate_gestures_enhanced qhL qhR hd).right = none) := by
  refine ⟨?_, ?_, ?_⟩
  · simp only [validate_gestures_enhanced]
    repeat' split
    all_goals rfl
  · intro hq hc
    cases hl : hd.left with
    | none =>
        simp only [validate_gestures_enhanced]
        repeat' split
        all_goals simp_all
    | some l =>
        simp only [validate_gestures_enhanced]
        repeat' split
        all_goals simp_all
  · intro hq hc
    cases hl : hd.right with
    | none =>
        simp only [validate_gestures_enhanced]
        repeat' split
        all_goals simp_all
    | some l =>
        simp only [validate_gestures_enhanced]
        repeat' split
        all_goals simp_all

/-- Evaluating the quality gate on the low-quality fist frame. -/
lemma validate_C5_eval :
    validate_gestures_enhanced 0 0 hdC5 =
      { left := none, landmarks_list := [fistLm],
        confidence_left := 0.2, quality_left := 0 } := by
  norm_num [validate_gestures_enhanced, hdC5]

/-- Evaluating the loop on the gated low-quality frame: the suppressed
landmarks are still handed to the complete-word detector. -/
lemma loop_C5_eval :
    (detection_loop_body initLoop
        (validate_gestures_enhanced 0 0 hdC5)).1 =
      { word_consulted := some fistLm, control_consulted := true,
        control_errored := true } := by
  rw [validate_C5_eval]
  norm_num [detection_loop_body, detection_loop_rest, initLoop,
    detect_complete_word, classify_word_gesture, w_thumb_up, w_index_up,
    w_middle_up, w_ring_up, w_pinky_up, initCW, takeLast, pt, py, px, d2,
    fistLm, mkLms]

/-- Claim C5 (corrected, counterexample): the low-quality fist hand is
suppressed per side (its entry becomes `None`), yet its landmarks stay in
`landmarks_list` and the detection loop passes exactly those landmarks to
the complete-word classifier on the same frame. -/
theorem C5_counterexample :
    hdC5.quality_left < 3 / 10
      ∧ (validate_gestures_enhanced 0 0 hdC5).left = none
      ∧ (validate_gestures_enhanced 0 0 hdC5).landmarks_list
          = hdC5.landmarks_list
      ∧ (detection_loop_body initLoop
          (validate_gestures_enhanced 0 0 hdC5)).1.word_consulted
          = some fistLm := by
  refine ⟨by norm_num [hdC5], ?_, ?_, ?_⟩
  · rw [validate_C5_eval]
  · rw [validate_C5_eval]
    simp [hdC5]
  · rw [loop_C5_eval]

/-- Claim C5 witness: the amended theorem at the low-quality fist
frame. -/
theorem C5_witness :
    (validate_gestures_enhanced 0 0 hdC5).landmarks_list
        = hdC5.landmarks_list
      ∧ (validate_gestures_enhanced 0 0 hdC5).left = none :=
  ⟨(C5_amended_thm 0 0 hdC5).1,
   (C5_amended_thm 0 0 hdC5).2.1 (by norm_num [hdC5])
     (by norm_num [hdC5])⟩

/-! ## Claim C3: repeat-emission guards -/

/-- One `detect_complete_word` step either abstains and keeps
`last_detected_word`, or confirms a word distinct from
`last_detected_word` and records it. -/
lemma detect_complete_word_cases (st : CWState) (lms : List ℚ) (c : ℚ) :
    ((detect_complete_word st lms c).1 = none
      ∧ (detect_complete_word st lms c).2.last_detected_word
          = st.last_detected_word)
    ∨ (∃ w, (detect_complete_word st lms c).1 = some w
        ∧ st.last_detected_word ≠ some w
        ∧ (detect_complete_word st lms c).2.last_detected_word = some w) := by
  unfold detect_complete_word
  dsimp only
  repeat' split
  all_goals
    first
      | exact Or.inl ⟨rfl, rfl⟩
      | exact Or.inr ⟨_, rfl, by assumption, rfl⟩

/-- One `process_control` step either abstains and keeps `last_control`,
or confirms a control distinct from `last_control` and records it. -/
lemma process_control_cases (st : CtlState) (g : Option String)
    (hdo : Option HandsData) :
    ((process_control st g hdo).1 = none
      ∧ (process_control st g hdo).2.last_control = st.last_control)
    ∨ (∃ c, (process_control st g hdo).1 = some c
        ∧ st.last_control ≠ some c
        ∧ (process_control st g hdo).2.last_control = some c) := by
  unfold process_control
  dsimp only
  repeat' split
  all_goals
    first
      | exact Or.inl ⟨rfl, rfl⟩
      | exact Or.inr ⟨_, rfl, by assumption, rfl⟩

/-- In every run of the complete-word detector, consecutive confirmed
words differ, and the first confirmed word differs from
`last_detected_word`. -/
lemma word_run_chain (l : List (List ℚ × ℚ)) :
    ∀ st : CWState,
      List.Chain' (fun a b => a ≠ b) (word_run st l)
        ∧ (∀ w, (word_run st l).head? = some w →
            st.last_detected_word ≠ some w) := by
  induction l with
  | nil =>
      intro st
      exact ⟨List.chain'_nil, by intro w h; simp [word_run] at h⟩
  | cons x rest ih =>
      intro st
      rcases detect_complete_word_cases st x.1 x.2 with ⟨h1, h2⟩
        | ⟨w, h1, hne, h2⟩
      · have he : word_run st (x :: rest)
            = word_run (detect_complete_word st x.1 x.2).2 rest := by
          simp only [word_run]
          rw [h1]
        rw [he]
        refine ⟨(ih _).1, ?_⟩
        intro w hw
        have hh := (ih _).2 w hw
        rwa [h2] at hh
      · have he : word_run st (x :: rest)
            = w :: word_run (detect_complete_word st x.1 x.2).2 rest := by
          simp only [word_run]
          rw [h1]
        rw [he]
        constructor
        · rw [List.chain'_cons']
          refine ⟨?_, (ih _).1⟩
          intro y hy
          have hh := (ih _).2 y (Option.mem_def.mp hy)
          rw [h2] at hh
          intro hwy
          exact hh (by rw [hwy])
        · intro w' hw'
          simp only [List.head?_cons, Option.some_inj] at hw'
          rw [← hw']
          exact hne

/-- In every run of the control processor, consecutive confirmed controls
differ, and the first confirmed control differs from `last_control`. -/
lemma ctl_run_chain (l : List (Option String × Option HandsData)) :
    ∀ st : CtlState,
      List.Chain' (fun a b => a ≠ b) (ctl_run st l)
        ∧ (∀ c, (ctl_run st l).head? = some c →
            st.last_control ≠ some c) := by
  induction l with
  | nil =>
      intro st
      exact ⟨List.chain'_nil, by intro c h; simp [ctl_run] at h⟩
  | cons x rest ih =>
      intro st
      rcases process_control_cases st x.1 x.2 with ⟨h1, h2⟩
        | ⟨c, h1, hne, h2⟩
      · have he : ctl_run st (x :: rest)
            = ctl_run (process_control st x.1 x.2).2 rest := by
          simp only [ctl_run]
          rw [h1]
        rw [he]
        refine ⟨(ih _).1, ?_⟩
        intro c hc
        have hh := (ih _).2 c hc
        rwa [h2] at hh
      · have he : ctl_run st (x :: rest)
            = c :: ctl_run (process_control st x.1 x.2).2 rest := by
          simp only [ctl_run]
          rw [h1]
        rw [he]
        constructor
        · rw [List.chain'_cons']
          refine ⟨?_, (ih _).1⟩
          intro y hy
          have hh := (ih _).2 y (Option.mem_def.mp hy)
          rw [h2] at hh
          intro hcy
          exact hh (by rw [hcy])
        · intro c' hc'
          simp only [List.head?_cons, Option.some_inj] at hc'
          rw [← hc']
          exact hne

/-- Claim C3 (corrected, amended part): the complete-word stream and the
control stream never confirm the same label twice in a row: in any run
from a fresh state, any two consecutive confirmed events differ (a
different label must be confirmed in between before a label can repeat). -/
theorem C3_amended_thm :
    (∀ l : List (List ℚ × ℚ),
        List.Chain' (fun a b => a ≠ b) (word_run initCW l))
      ∧ (∀ l : List (Option String × Option HandsData),
          List.Chain' (fun a b => a ≠ b) (ctl_run initCtl l)) :=
  ⟨fun l => (word_run_chain l initCW).1, fun l => (ctl_run_chain l initCtl).1⟩

/-- Claim C3 (corrected, counterexample): the letter stream has no such
guard: a single label held for five frames is confirmed on frame 4 and
again on frame 5, with no cooldown and no different label in between, so
the stream does not emit exactly one event for a held pose. -/
theorem C3_counterexample :
    letter_run 4 [] [some "A", some "A", some "A", some "A", some "A"]
      = [none, none, none, some "A", some "A"] := by
  decide

/-! ## Claim C7: alternating streams never confirm -/

lemma suffix_append_same {α : Type} {s l : List α} (h : s <:+ l) (x : α) :
    s ++ [x] <:+ l ++ [x] := by
  obtain ⟨t, ht⟩ := h
  exact ⟨t, by rw [← List.append_assoc, ht]⟩

/-- Counting either label in any suffix window of the alternating stream:
at most every other element. -/
lemma alt_suffix_count (a b : String) (hab : a ≠ b) :
    ∀ (n : ℕ) (w : List (Option String)), w <:+ altTo a b n →
      2 * w.count (some a) ≤ w.length + n % 2
        ∧ 2 * w.count (some b) + n % 2 ≤ w.length + 1 := by
  intro n
  induction n with
  | zero =>
      intro w hw
      have hwnil : w = [] := List.suffix_nil.mp hw
      subst hwnil
      simp
  | succ n ih =>
      intro w hw
      rw [altTo] at hw
      rcases suffix_append_singleton hw with hnil | ⟨s, hs, hsw⟩
      · subst hnil
        simp
        omega
      · subst hsw
        obtain ⟨iha, ihb⟩ := ih s hs
        have ca1 : List.count (some a) [if n % 2 = 0 then some a else some b]
            = (if n % 2 = 0 then 1 else 0) := by
          by_cases hp : n % 2 = 0 <;>
            simp [hp, List.count_cons, Option.some.injEq, hab, Ne.symm hab]
        have cb1 : List.count (some b) [if n % 2 = 0 then some a else some b]
            = (if n % 2 = 0 then 0 else 1) := by
          by_cases hp : n % 2 = 0 <;>
            simp [hp, List.count_cons, Option.some.injEq, hab, Ne.symm hab]
        rw [List.count_append, List.count_append, List.length_append,
          ca1, cb1, List.length_singleton]
        by_cases hp : n % 2 = 0
        · have h1 : (n + 1) % 2 = 1 := by omega
          rw [if_pos hp, if_pos hp, h1]
          rw [hp] at iha ihb
          omega
        · have hp1 : n % 2 = 1 := by omega
          have h0 : (n + 1) % 2 = 0 := by omega
          rw [if_neg hp, if_neg hp, h0]
          rw [hp1] at iha ihb
          omega

/-- The letter stabilizer abstains whenever the current label fails the
majority count over the recent window. -/
lemma letter_stabilize_out_none (thr : ℕ) (hist : List (Option String))
    (cur : Option String)
    (h : ∀ l, cur = some l →
      5 * (takeLast thr (hist ++ [cur])).count (some l) < 3 * thr) :
    (letter_stabilize thr hist cur).1 = none := by
  unfold letter_stabilize
  cases cur with
  | none =>
      dsimp only
      repeat' split
      all_goals rfl
  | some l =>
      dsimp only
      have hcount := h l rfl
      by_cases htr : thr * 2 < (hist ++ [some l]).length
      · rw [if_pos htr, takeLast_idem]
        split
        · rw [if_neg (by omega)]
        · rfl
      · rw [if_neg htr]
        split
        · rw [if_neg (by omega)]
        · rfl

/-- The syllable stabilizer abstains whenever the current label fails the
majority count over the recent window. -/
lemma syll_stabilize_out_none (thr : ℕ) (hist : List (Option String))
    (cur : Option String)
    (h : ∀ l, cur = some l →
      5 * (takeLast thr (hist ++ [cur])).count (some l) < 3 * thr) :
    (stabilize_detection thr hist cur).1 = none := by
  unfold stabilize_detection
  cases cur with
  | none =>
      dsimp only
      repeat' split
      all_goals rfl
  | some l =>
      dsimp only
      have hcount := h l rfl
      by_cases htr : thr * 2 < (hist ++ [some l]).length
      · rw [if_pos htr, takeLast_idem]
        split
        · rw [if_neg (by omega)]
        · rfl
      · rw [if_neg htr]
        split
        · rw [if_neg (by omega)]
        · rfl

lemma letter_stabilize_snd_suffix (thr : ℕ) (hist : List (Option String))
    (cur : Option String) :
    (letter_stabilize thr hist cur).2 <:+ hist ++ [cur] := by
  unfold letter_stabilize
  dsimp only
  split
  · exact takeLast_suffix _ _
  · exact List.suffix_refl _

lemma syll_stabilize_snd_suffix (thr : ℕ) (hist : List (Option String))
    (cur : Option String) :
    (stabilize_detection thr hist cur).2 <:+ hist ++ [cur] := by
  unfold stabilize_detection
  dsimp only
  split
  · exact takeLast_suffix _ _
  · exact List.suffix_refl _

lemma altTo_add (a b : String) : ∀ (len k : ℕ),
    altTo a b (k + len) = altTo a b k ++ altFrom a b k len := by
  intro len
  induction len with
  | zero => intro k; simp [altFrom]
  | succ n ih =>
      intro k
      have h1 : k + (n + 1) = (k + 1) + n := by omega
      rw [h1, ih (k + 1), altTo, altFrom, List.append_assoc]
      rfl

/-- No output ever fires while the letter stream (window 4, 60 percent)
consumes the alternating stream. -/
lemma letter_run_alt (a b : String) (hab : a ≠ b) :
    ∀ (len k : ℕ) (hist : List (Option String)), hist <:+ altTo a b k →
      ∀ o ∈ letter_run 4 hist (altFrom a b k len), o = none := by
  intro len
  induction len with
  | zero =>
      intro k hist _ o ho
      simp [letter_run, altFrom] at ho
  | succ n ih =>
      intro k hist hsuf o ho
      rw [altFrom] at ho
      simp only [letter_run, List.mem_cons] at ho
      have hsuf1 : hist ++ [if k % 2 = 0 then some a else some b]
          <:+ altTo a b (k + 1) := by
        rw [altTo]
        exact suffix_append_same hsuf _
      rcases ho with rfl | homem
      · apply letter_stabilize_out_none
        intro l hcl
        have hw : takeLast 4 (hist ++ [if k % 2 = 0 then some a else some b])
            <:+ altTo a b (k + 1) :=
          (takeLast_suffix _ _).trans hsuf1
        have hlen := takeLast_length_le 4
          (hist ++ [if k % 2 = 0 then some a else some b])
        obtain ⟨ha2, hb2⟩ := alt_suffix_count a b hab (k + 1) _ hw
        have hm : (k + 1) % 2 ≤ 1 := by omega
        by_cases hp : k % 2 = 0
        · rw [if_pos hp] at hcl
          obtain rfl : l = a := (Option.some_inj.mp hcl).symm
          omega
        · rw [if_neg hp] at hcl
          obtain rfl : l = b := (Option.some_inj.mp hcl).symm
          omega
      · exact ih (k + 1)
          (letter_stabilize 4 hist (if k % 2 = 0 then some a else some b)).2
          ((letter_stabilize_snd_suffix _ _ _).trans hsuf1) o homem

/-- No output ever fires while the syllable stream (window 8, 60 percent)
consumes the alternating stream. -/
lemma syll_run_alt (a b : String) (hab : a ≠ b) :
    ∀ (len k : ℕ) (hist : List (Option String)), hist <:+ altTo a b k →
      ∀ o ∈ syll_run 8 hist (altFrom a b k len), o = none := by
  intro len
  induction len with
  | zero =>
      intro k hist _ o ho
      simp [syll_run, altFrom] at ho
  | succ n ih =>
      intro k hist hsuf o ho
      rw [altFrom] at ho
      simp only [syll_run, List.mem_cons] at ho
      have hsuf1 : hist ++ [if k % 2 = 0 then some a else some b]
          <:+ altTo a b (k + 1) := by
        rw [altTo]
        exact suffix_append_same hsuf _
      rcases ho with rfl | homem
      · apply syll_stabilize_out_none
        intro l hcl
        have hw : takeLast 8 (hist ++ [if k % 2 = 0 then some a else some b])
            <:+ altTo a b (k + 1) :=
          (takeLast_suffix _ _).trans hsuf1
        have hlen := takeLast_length_le 8
          (hist ++ [if k % 2 = 0 then some a else some b])
        obtain ⟨ha2, hb2⟩ := alt_suffix_count a b hab (k + 1) _ hw
        have hm : (k + 1) % 2 ≤ 1 := by omega
        by_cases hp : k % 2 = 0
        · rw [if_pos hp] at hcl
          obtain rfl : l = a := (Option.some_inj.mp hcl).symm
          omega
        · rw [if_neg hp] at hcl
          obtain rfl : l = b := (Option.some_inj.mp hcl).symm
          omega
      · exact ih (k + 1)
          (stabilize_detection 8 hist (if k % 2 = 0 then some a else some b)).2
          ((syll_stabilize_snd_suffix _ _ _).trans hsuf1) o homem

/-- Claim C7 (confirmed): a raw-label stream alternating between two
distinct labels never lets either label reach the 60 percent majority
inside the stability window, so neither the letter stream (window 4) nor
the syllable stream (window 8) ever confirms an event, for a stream of
any length. -/
theorem C7_thm (a b : String) (hab : a ≠ b) (n : ℕ) :
    (∀ o ∈ letter_run 4 [] (altTo a b n), o = none)
      ∧ (∀ o ∈ syll_run 8 [] (altTo a b n), o = none) := by
  have he : altTo a b n = altFrom a b 0 n := by
    have := altTo_add a b n 0
    simpa [altTo] using this
  rw [he]
  exact ⟨letter_run_alt a b hab n 0 [] (by simp [altTo]),
    syll_run_alt a b hab n 0 [] (by simp [altTo])⟩

/-- Claim C7 witness: the theorem at two concrete labels and a stream of
ten frames. -/
theorem C7_witness :
    (∀ o ∈ letter_run 4 [] (altTo "A" "B" 10), o = none)
      ∧ (∀ o ∈ syll_run 8 [] (altTo "A" "B" 10), o = none) :=
  C7_thm "A" "B" (by decide) 10

/-! ## Claim C6: replaying one fixture through the letter classifier -/

/-- The classifier state reached after `n` replayed calls on a fixed
fixture that passes the length guard. -/
noncomputable def replay_state (lms : List ℚ) (n : ℕ) : GCState :=
  { detection_history :=
      List.replicate (histLen n) (replay_valid lms),
    confidence_scores := replay_scores lms n }

lemma histLen_facts : ∀ n : ℕ,
    histLen n ≤ 8 ∧ (n ≤ 8 → histLen n = n) ∧ (4 ≤ n → 4 ≤ histLen n) := by
  intro n
  induction n with
  | zero => simp [histLen]
  | succ n ih =>
      obtain ⟨h1, h2, h3⟩ := ih
      unfold histLen
      refine ⟨?_, ?_, ?_⟩
      · split <;> omega
      · intro h
        have := h2 (by omega)
        split <;> omega
      · intro _
        split
        · omega
        · rcases Nat.lt_or_ge n 4 with hn | hn
          · have := h2 (by omega)
            omega
          · have := h3 hn
            omega

lemma replay_scores_zero (lms : List ℚ) :
    replay_scores lms 0 = fun _ => [] := by
  unfold replay_scores
  cases hcl : classify_complete_alphabet lms with
  | none => rfl
  | some l =>
      funext x
      dsimp only
      split <;> rfl

lemma replay_valid_of_none {lms : List ℚ}
    (hcl : classify_complete_alphabet lms = none) :
    replay_valid lms = none := by
  unfold replay_valid
  rw [hcl]

lemma replay_valid_of_some {lms : List ℚ} {l : String}
    (hcl : classify_complete_alphabet lms = some l) :
    replay_valid lms
      = (if (65 / 100 : ℚ) ≤ calculate_gesture_confidence l lms then some l
         else none) := by
  unfold replay_valid
  rw [hcl]

lemma replay_scores_of_none {lms : List ℚ}
    (hcl : classify_complete_alphabet lms = none) (n : ℕ) :
    replay_scores lms n = fun _ => [] := by
  unfold replay_scores
  rw [hcl]

lemma replay_scores_of_some {lms : List ℚ} {l : String}
    (hcl : classify_complete_alphabet lms = some l) (n : ℕ) :
    replay_scores lms n
      = fun x =>
          if x = l then
            List.replicate (min n 10) (calculate_gesture_confidence l lms)
          else [] := by
  unfold replay_scores
  rw [hcl]

/-- One cross-validation step on the replayed fixture: the result is the
fixed label gated by its constant confidence, and the score dictionary
advances one call. -/
lemma cross_validate_replay {lms : List ℚ} {l : String}
    (hcl : classify_complete_alphabet lms = some l) (n : ℕ) :
    cross_validate_detection l lms (65 / 100) (replay_scores lms n)
      = ((if (65 / 100 : ℚ) ≤ calculate_gesture_confidence l lms then some l
          else none),
         replay_scores lms (n + 1)) := by
  unfold cross_validate_detection
  dsimp only
  rw [replay_scores_of_some hcl n]
  dsimp only
  rw [if_pos rfl]
  rw [← List.replicate_succ']
  have hxs :
      (if 10 < (List.replicate (min n 10 + 1)
            (calculate_gesture_confidence l lms)).length then
          takeLast 10 (List.replicate (min n 10 + 1)
            (calculate_gesture_confidence l lms))
        else List.replicate (min n 10 + 1)
            (calculate_gesture_confidence l lms))
        = List.replicate (min (n + 1) 10)
            (calculate_gesture_confidence l lms) := by
    rw [List.length_replicate]
    by_cases h10 : 10 < min n 10 + 1
    · rw [if_pos h10, takeLast_replicate]
      have he1 : min n 10 + 1 - (min n 10 + 1 - 10) = 10 := by omega
      rw [he1]
      have he2 : min (n + 1) 10 = 10 := by omega
      rw [he2]
    · rw [if_neg h10]
      have he3 : min (n + 1) 10 = min n 10 + 1 := by omega
      rw [he3]
  rw [hxs]
  rw [listMean_replicate (by omega)]
  have hscores : (fun x =>
      if x = l then
        List.replicate (min (n + 1) 10) (calculate_gesture_confidence l lms)
      else
        (fun x =>
          if x = l then
            List.replicate (min n 10) (calculate_gesture_confidence l lms)
          else []) x)
      = replay_scores lms (n + 1) := by
    rw [replay_scores_of_some hcl (n + 1)]
    funext x
    dsimp only
    split <;> rfl
  rw [hscores]
  split <;> rfl

/-- Feeding the stabilizer its own constant history: confirmation exactly
when the window is full. -/
lemma letter_stabilize_replicate (m : ℕ) (v : Option String) :
    letter_stabilize 4 (List.replicate m v) v
      = (if 4 ≤ (if 8 < m + 1 then 4 else m + 1) then v else none,
         List.replicate (if 8 < m + 1 then 4 else m + 1) v) := by
  unfold letter_stabilize
  dsimp only
  rw [← List.replicate_succ', List.length_replicate]
  have hfour : ∀ k : ℕ, 4 ≤ k →
      takeLast 4 (List.replicate k v) = List.replicate 4 v := by
    intro k hk
    rw [takeLast_replicate]
    have : k - (k - 4) = 4 := by omega
    rw [this]
  by_cases h8 : 8 < m + 1
  · rw [if_pos h8, if_pos h8]
    rw [hfour (m + 1) (by omega), List.length_replicate]
    rw [if_pos (by omega)]
    cases v with
    | none => rfl
    | some l =>
        dsimp only
        rw [hfour 4 (by omega), List.count_replicate_self]
        rw [if_pos (by omega)]
        simp
  · rw [if_neg h8, if_neg h8, List.length_replicate]
    by_cases h4 : 4 ≤ m + 1
    · rw [if_pos h4, if_pos h4]
      cases v with
      | none => rfl
      | some l =>
          dsimp only
          rw [hfour (m + 1) h4, List.count_replicate_self]
          rw [if_pos (by omega)]
    · rw [if_neg h4, if_neg h4]

lemma histLen_succ (n : ℕ) :
    histLen (n + 1) = if 8 < histLen n + 1 then 4 else histLen n + 1 := rfl

/-- One replayed `predict_gesture` call advances the invariant state and
emits the constant validated label exactly once the window is full. -/
lemma predict_gesture_replay_step (lms : List ℚ) (h63 : 63 ≤ lms.length)
    (hne : lms ≠ []) (n : ℕ) :
    predict_gesture (replay_state lms n) lms
      = (if 4 ≤ histLen (n + 1) then replay_valid lms else none,
         replay_state lms (n + 1)) := by
  have hemp : lms.isEmpty = false := by
    cases lms with
    | nil => exact absurd rfl hne
    | cons a t => rfl
  have hlt : decide (lms.length < 63) = false := by
    simp
    omega
  unfold predict_gesture
  rw [if_neg (by simp [replay_state, hemp, hlt])]
  dsimp only [replay_state]
  cases hcl : classify_complete_alphabet lms with
  | none =>
      dsimp only
      rw [replay_valid_of_none hcl]
      rw [letter_stabilize_replicate, ← histLen_succ]
      rw [replay_scores_of_none hcl n, replay_scores_of_none hcl (n + 1)]
  | some l =>
      dsimp only
      rw [cross_validate_replay hcl n]
      dsimp only
      rw [replay_valid_of_some hcl]
      rw [letter_stabilize_replicate, ← histLen_succ]

/-- Closed form of every replayed call on a well-formed fixture. -/
lemma letter_replay_closed (lms : List ℚ) (h63 : 63 ≤ lms.length)
    (hne : lms ≠ []) :
    ∀ n, letter_replay lms (n + 1)
      = (if 4 ≤ histLen (n + 1) then replay_valid lms else none,
         replay_state lms (n + 1)) := by
  have h0 : (letter_replay lms 0).2 = replay_state lms 0 := by
    show ({ : GCState}) = replay_state lms 0
    unfold replay_state
    rw [replay_scores_zero]
    rfl
  intro n
  induction n with
  | zero =>
      rw [letter_replay, h0]
      exact predict_gesture_replay_step lms h63 hne 0
  | succ n ih =>
      rw [letter_replay, ih]
      exact predict_gesture_replay_step lms h63 hne (n + 1)

/-- A short fixture makes every call return `none` with the state
untouched. -/
lemma letter_replay_guard (lms : List ℚ)
    (hbad : lms.length < 63 ∨ lms = []) :
    ∀ n, letter_replay lms n = (none, { : GCState }) := by
  have hstep : ∀ st : GCState, predict_gesture st lms = (none, st) := by
    intro st
    unfold predict_gesture
    rcases hbad with h | h
    · rw [if_pos (by simp [decide_eq_true h])]
    · rw [if_pos (by simp [h])]
  intro n
  induction n with
  | zero => rfl
  | succ n ih =>
      rw [letter_replay, ih]
      exact hstep _

/-- Claim C6 (corrected, amended part): `predict_gesture` is
deterministic given its state but stateful across calls: replaying any
fixed fixture from a fresh classifier returns `None` on each of the
first three calls, and from the fourth call on it returns the same fixed
result on every call. -/
theorem C6_amended_thm (lms : List ℚ) :
    (∀ n, n ≤ 3 → (letter_replay lms n).1 = none)
      ∧ (∀ n, 4 ≤ n → (letter_replay lms n).1 = (letter_replay lms 4).1) := by
  by_cases hok : 63 ≤ lms.length ∧ lms ≠ []
  · obtain ⟨h63, hne⟩ := hok
    constructor
    · intro n hn
      match n, hn with
      | 0, _ => rfl
      | (m + 1), hn =>
          rw [letter_replay_closed lms h63 hne m]
          have hm : histLen (m + 1) = m + 1 :=
            (histLen_facts (m + 1)).2.1 (by omega)
          rw [if_neg (by omega)]
    · intro n h4
      obtain ⟨m, rfl⟩ : ∃ m, n = m + 1 := ⟨n - 1, by omega⟩
      rw [letter_replay_closed lms h63 hne m,
        letter_replay_closed lms h63 hne 3]
      have hm : 4 ≤ histLen (m + 1) := (histLen_facts (m + 1)).2.2 (by omega)
      have h4' : 4 ≤ histLen 4 := (histLen_facts 4).2.2 (by omega)
      rw [if_pos hm, if_pos h4']
  · have hbad : lms.length < 63 ∨ lms = [] := by
      rcases not_and_or.mp hok with h | h
      · exact Or.inl (by omega)
      · exact Or.inr (not_not.mp h)
    constructor
    · intro n _
      rw [letter_replay_guard lms hbad n]
    · intro n _
      rw [letter_replay_guard lms hbad n, letter_replay_guard lms hbad 4]

/-- The B fixture classifies as the letter B: every earlier clause of the
cascade fails on it. -/
lemma classify_fixB : classify_with_enhanced_rules lmB = some "B" := by
  have hidx : index_ext lmB = true := by
    norm_num [index_ext, pt, py, lmB, mkLms]
  have hmid : middle_ext lmB = true := by
    norm_num [middle_ext, pt, py, lmB, mkLms]
  have hrng : ring_ext lmB = true := by
    norm_num [ring_ext, pt, py, lmB, mkLms]
  have hpnk : pinky_ext lmB = true := by
    norm_num [pinky_ext, pt, py, lmB, mkLms]
  have hthm : thumb_ext lmB = false := by
    norm_num [thumb_ext, pt, py, lmB, mkLms]
  have hfist : fist lmB = false := by
    simp [fist, fingers_count, hidx, hmid, hrng, hpnk, hthm]
  have htwo : two_middle_up lmB = false := by
    simp [two_middle_up, hrng]
  have hrimp : r_improved lmB = false := by
    simp [r_improved, hrng]
  have hd1 : index_middle_d2 lmB < (5 / 100 : ℚ) ^ 2 := by
    norm_num [index_middle_d2, d2, pt, py, px, pz, lmB, mkLms]
  have hd2 : middle_ring_d2 lmB < (5 / 100 : ℚ) ^ 2 := by
    norm_num [middle_ring_d2, d2, pt, py, px, pz, lmB, mkLms]
  unfold classify_with_enhanced_rules
  simp [q_check1, t_formation, m_formation, n_formation, nn_formation,
    p_formation, u_formation, g_formation, j_formation, ll_formation,
    rr_formation, e_formation, k_formation, three_middle_up,
    hidx, hmid, hrng, hpnk, hthm, hfist, htwo, hrimp, hd1, hd2]

/-- Confidence of the B fixture: the general fallback branch yields
0.8. -/
lemma conf_fixB : calculate_gesture_confidence "B" lmB = 4 / 5 := by
  have hidx : index_ext lmB = true := by
    norm_num [index_ext, pt, py, lmB, mkLms]
  have hmid : middle_ext lmB = true := by
    norm_num [middle_ext, pt, py, lmB, mkLms]
  have hrng : ring_ext lmB = true := by
    norm_num [ring_ext, pt, py, lmB, mkLms]
  have hpnk : pinky_ext lmB = true := by
    norm_num [pinky_ext, pt, py, lmB, mkLms]
  have hthm : thumb_ext lmB = false := by
    norm_num [thumb_ext, pt, py, lmB, mkLms]
  have hcnt : fingers_count lmB = 4 := by
    simp [fingers_count, hidx, hmid, hrng, hpnk, hthm]
  have hK : ¬(("B" : String) = "K" ∧ k_formation lmB) := by
    rintro ⟨h, -⟩
    simp at h
  have hP : ¬(("B" : String) = "P" ∧ p_formation lmB = true) := by
    rintro ⟨h, -⟩
    simp at h
  have hU : ¬(("B" : String) = "U" ∧ u_formation lmB = true) := by
    rintro ⟨h, -⟩
    simp at h
  have hE : ¬(("B" : String) = "E" ∧ e_formation lmB) := by
    rintro ⟨h, -⟩
    simp at h
  have hG : ¬(("B" : String) = "G" ∧ g_formation lmB = true) := by
    rintro ⟨h, -⟩
    simp at h
  unfold calculate_gesture_confidence
  rw [if_neg hK, if_neg hP, if_neg hU, if_neg hE, if_neg hG]
  norm_num [hcnt, min_def]

/-- Claim C6 (corrected, counterexample): replaying the very same B
fixture through `predict_gesture` from a fresh classifier does not give
the same answer on every call: call 1 returns `None` while call 4
returns the letter B, because the detection history is hidden
per-instance state. -/
theorem C6_counterexample :
    (letter_replay lmB 1).1 = none
      ∧ (letter_replay lmB 4).1 = some "B" := by
  have h63 : (63 : ℕ) ≤ lmB.length := by norm_num [lmB, mkLms]
  have hne : lmB ≠ [] := by simp [lmB, mkLms]
  have hcl : classify_complete_alphabet lmB = some "B" := by
    unfold classify_complete_alphabet
    rw [if_neg (by simp [lmB, mkLms])]
    exact classify_fixB
  have hv : replay_valid lmB = some "B" := by
    rw [replay_valid_of_some hcl, conf_fixB]
    norm_num
  constructor
  · rw [letter_replay_closed lmB h63 hne 0]
    have h1 : histLen (0 + 1) = 0 + 1 := (histLen_facts (0 + 1)).2.1 (by omega)
    rw [if_neg (by omega)]
  · rw [letter_replay_closed lmB h63 hne 3]
    have h4 : 4 ≤ histLen 4 := (histLen_facts 4).2.2 (by omega)
    rw [if_pos h4]
    exact hv

/-- Claim C6 witness: the amended theorem at the B fixture. -/
theorem C6_witness :
    (letter_replay lmB 2).1 = none
      ∧ (letter_replay lmB 5).1 = (letter_replay lmB 4).1 :=
  ⟨(C6_amended_thm lmB).1 2 (by norm_num),
   (C6_amended_thm lmB).2 5 (by norm_num)⟩

end Senas
